import Mathlib

/-!
# Verification of the tarpc server-side channel core

A shallow embedding of `src/tarpc/src/server.rs`: the `BaseChannel`
stream/sink over a fused transport, the `Requests` pump
(`pump_read`, `pump_write`, `poll_next_response`, `poll_next`), the
per-request `InFlightRequest::execute` handler, and the
`InFlightRequests` deadline registry (whose module is not part of the
sources here; it is modelled from the specification §4.1).

Poll-based asynchronous code is embedded as pure state-passing
functions.  The abstract transport is given by scripts: a list of read
events consumed by `poll_next`, and per-operation result scripts for
`poll_ready` / `poll_flush` / `start_send`.  Loops in the source are
bounded by an explicit fuel that is always instantiated large enough
(one more than the relevant script length) that the zero-fuel case is
unreachable, so the fueled functions compute exactly what the Rust
loops compute.
-/

set_option autoImplicit false

namespace Tarpc

/-- Request identifiers: `u64` in the source. The claims checked here never
exercise 64-bit overflow, so `Nat` is a faithful carrier. -/
abbrev RequestId := Nat

/-- Absolute deadline instants (`SystemTime`), compared with `≤` only. -/
abbrev Time := Nat

/-- Transport error values (`io::Error`); opaque to the core. -/
abbrev IoErr := Nat

/-- Server error payload of a negative response; opaque to the core. -/
abbrev ServerError := Nat

instance instDecidableEqExcept {ε α : Type} [DecidableEq ε] [DecidableEq α] :
    DecidableEq (Except ε α)
  | .error e, .error f =>
    match decEq e f with
    | isTrue h => isTrue (h ▸ rfl)
    | isFalse h => isFalse (fun hc => h (Except.error.inj hc))
  | .error _, .ok _ => isFalse (fun hc => Except.noConfusion hc)
  | .ok _, .error _ => isFalse (fun hc => Except.noConfusion hc)
  | .ok a, .ok b =>
    match decEq a b with
    | isTrue h => isTrue (h ▸ rfl)
    | isFalse h => isFalse (fun hc => h (Except.ok.inj hc))

/-- Trace/span identifiers copied through for logging. -/
structure TraceContext where
  trace_id : Nat
deriving Repr, DecidableEq

/-- `context::Context`: per-request metadata (deadline + trace context). -/
structure Context where
  deadline : Time
  trace_context : TraceContext
deriving Repr, DecidableEq

/-- `Request<Req>`: an id, a context and a message. -/
structure Request (Req : Type) where
  context : Context
  id : RequestId
  message : Req
deriving Repr, DecidableEq

/-- `Response<Resp>`: echoes the request id; `message` is `Ok` or a server error. -/
structure Response (Resp : Type) where
  request_id : RequestId
  message : Except ServerError Resp
deriving Repr, DecidableEq

/-- `ClientMessage<Req>`: a request or an out-of-band cancellation. -/
inductive ClientMessage (Req : Type) : Type where
  | request (r : Request Req)
  | cancel (trace_context : TraceContext) (request_id : RequestId)
deriving Repr, DecidableEq

/-- `Poll<α>`: ready with a value, or pending. -/
inductive Poll (α : Type) : Type where
  | ready (a : α)
  | pending
deriving Repr, DecidableEq

/-- `PollIo<α> = Poll<Option<io::Result<α>>>`, exactly as in the source. -/
abbrev PollIo (α : Type) := Poll (Option (Except IoErr α))

/-- The error `InFlightRequests::start_request` returns on a duplicate id. -/
structure AlreadyExistsError where
deriving Repr, DecidableEq

/-- The observing side of an abort pair, handed to the request handler. -/
structure AbortRegistration where
  id : RequestId
deriving Repr, DecidableEq

/-! ## InFlightRequests (modelled from the spec, §4.1) -/

/-- One node of the registry: a request id with its deadline. -/
structure IfrEntry where
  id : RequestId
  deadline : Time
deriving Repr, DecidableEq

/-- Modelled from the spec: the `in_flight_requests` module is declared in
`server.rs` (`mod in_flight_requests;`) but its file is not among the
sources. Per spec §4.1 it is a map `M : RequestId → CancelHandle` fused with a
deadline-ordered priority queue `Q`; `entries` is the synchronized contents of
`M`/`Q` and `firedIds` records the cancel handles fired so far (firing is
at-most-once per entry). -/
structure InFlightRequests where
  entries : List IfrEntry
  firedIds : List RequestId
deriving Repr, DecidableEq

/-- The empty registry (`InFlightRequests::default()`). -/
def InFlightRequests.default : InFlightRequests := ⟨[], []⟩

/-- `len()`: current size of the registry. -/
def InFlightRequests.len (s : InFlightRequests) : Nat := s.entries.length

/-- Whether `id` is currently in flight. -/
def InFlightRequests.contains (s : InFlightRequests) (id : RequestId) : Bool :=
  s.entries.any (fun e => e.id == id)

/-- Modelled from the spec: `start_request(id, deadline)`. Fails with
`AlreadyExists` if `id` is already present; otherwise stores the cancel
handle under `id` in `M`, pushes `(deadline, id)` into `Q`, and returns the
registration side of the pair. -/
def InFlightRequests.start_request (s : InFlightRequests) (id : RequestId)
    (deadline : Time) : Except AlreadyExistsError (InFlightRequests × AbortRegistration) :=
  if s.contains id then
    .error ⟨⟩
  else
    .ok ({ s with entries := ⟨id, deadline⟩ :: s.entries }, ⟨id⟩)

/-- Modelled from the spec: `cancel_request(id)`. If present, remove from
`M` and `Q`, fire the cancel handle and return `true`; else return `false`. -/
def InFlightRequests.cancel_request (s : InFlightRequests) (id : RequestId) :
    InFlightRequests × Bool :=
  if s.contains id then
    ({ entries := s.entries.filter (fun e => e.id != id),
       firedIds := id :: s.firedIds }, true)
  else
    (s, false)

/-- Modelled from the spec: `remove_request(id)`. Called when a response is
being sent; removes silently (the handle is *not* fired — the handler is
already done) and does not error when the id is absent. -/
def InFlightRequests.remove_request (s : InFlightRequests) (id : RequestId) :
    InFlightRequests :=
  { s with entries := s.entries.filter (fun e => e.id != id) }

/-- The head of the deadline priority queue `Q`: an entry of minimal deadline. -/
def minEntry : List IfrEntry → Option IfrEntry
  | [] => none
  | e :: es =>
    match minEntry es with
    | none => some e
    | some m => if e.deadline ≤ m.deadline then some e else some m

/-- Modelled from the spec: `poll_expired(cx)`. Inspect the head of `Q`: if
its deadline is ≤ now, pop it, remove it from `M`, fire its handle and return
`Ready(Some(id))`; if `Q` is empty return `Ready(None)`; else arm the timer
and return `Pending`. -/
def InFlightRequests.poll_expired (s : InFlightRequests) (now : Time) :
    InFlightRequests × Poll (Option RequestId) :=
  match minEntry s.entries with
  | none => (s, .ready none)
  | some e =>
    if e.deadline ≤ now then
      ({ entries := s.entries.filter (fun x => x.id != e.id),
         firedIds := e.id :: s.firedIds }, .ready (some e.id))
    else
      (s, .pending)

/-- The `while let Poll::Ready(Some(request_id)) = ...poll_expired(cx)?` drain
loop opening `BaseChannel::poll_next`, with fuel; each successful pop shrinks
the registry, so fuel `len + 1` runs the loop to quiescence. -/
def drainExpired (now : Time) : Nat → InFlightRequests → InFlightRequests
  | 0, s => s
  | fuel + 1, s =>
    let p := s.poll_expired now
    match p.2 with
    | .ready (some _) => drainExpired now fuel p.1
    | .ready none => p.1
    | .pending => p.1

/-! ## The abstract transport and its `Fuse` wrapper -/

/-- Scripted outcome of one `poll_ready`/`poll_flush` call on the transport. -/
inductive OpRes : Type where
  | ok
  | pend
  | fail (e : IoErr)
deriving Repr, DecidableEq

/-- Scripted outcome of one transport `poll_next` (stream) call. -/
inductive ReadEv (Req : Type) : Type where
  | msg (m : ClientMessage Req)
  | eof
  | fail (e : IoErr)
  | pend
deriving Repr, DecidableEq

/-- The abstract duplex transport of §6: the environment's behavior is a
script per operation, consumed from the head; an exhausted script answers
`Pending` (for `start_send`, success). `written` records, in order, every
response handed to `start_send` successfully. -/
structure TransportState (Req Resp : Type) : Type where
  readScript : List (ReadEv Req)
  readyScript : List OpRes
  flushScript : List OpRes
  sendScript : List (Option IoErr)
  written : List (Response Resp)
deriving Repr, DecidableEq

section TransportOps

variable {Req Resp : Type}

/-- Transport stream `poll_next`: produce the next scripted read event. -/
def TransportState.poll_next (t : TransportState Req Resp) :
    TransportState Req Resp × Poll (Option (Except IoErr (ClientMessage Req))) :=
  match t.readScript with
  | [] => (t, .pending)
  | ev :: rest =>
    let t' := { t with readScript := rest }
    match ev with
    | .msg m => (t', .ready (some (.ok m)))
    | .eof => (t', .ready none)
    | .fail e => (t', .ready (some (.error e)))
    | .pend => (t', .pending)

/-- Transport sink `poll_ready`. -/
def TransportState.poll_ready (t : TransportState Req Resp) :
    TransportState Req Resp × Poll (Except IoErr Unit) :=
  match t.readyScript with
  | [] => (t, .pending)
  | r :: rest =>
    let t' := { t with readyScript := rest }
    match r with
    | .ok => (t', .ready (.ok ()))
    | .pend => (t', .pending)
    | .fail e => (t', .ready (.error e))

/-- Transport sink `poll_flush`. -/
def TransportState.poll_flush (t : TransportState Req Resp) :
    TransportState Req Resp × Poll (Except IoErr Unit) :=
  match t.flushScript with
  | [] => (t, .pending)
  | r :: rest =>
    let t' := { t with flushScript := rest }
    match r with
    | .ok => (t', .ready (.ok ()))
    | .pend => (t', .pending)
    | .fail e => (t', .ready (.error e))

/-- Transport sink `start_send`: on success the response joins `written`. -/
def TransportState.start_send (t : TransportState Req Resp) (r : Response Resp) :
    TransportState Req Resp × Except IoErr Unit :=
  match t.sendScript with
  | [] => ({ t with written := t.written ++ [r] }, .ok ())
  | none :: rest => ({ t with sendScript := rest, written := t.written ++ [r] }, .ok ())
  | some e :: rest => ({ t with sendScript := rest }, .error e)

end TransportOps

/-- `futures::stream::Fuse<T>`: `BaseChannel::new` wraps the transport with
`transport.fuse()`. `done` becomes true once the inner stream yields
end-of-stream, after which `poll_next` returns `Ready(None)` forever without
touching the inner transport. Sink operations delegate to the inner sink. -/
structure Fuse (Req Resp : Type) : Type where
  inner : TransportState Req Resp
  done : Bool
deriving Repr, DecidableEq

section FuseOps

variable {Req Resp : Type}

/-- Fused stream `poll_next`. -/
def Fuse.poll_next (f : Fuse Req Resp) :
    Fuse Req Resp × Poll (Option (Except IoErr (ClientMessage Req))) :=
  if f.done then
    (f, .ready none)
  else
    let p := f.inner.poll_next
    match p.2 with
    | .ready none => ({ inner := p.1, done := true }, .ready none)
    | r => ({ f with inner := p.1 }, r)

/-- Fused sink `poll_ready` (delegates). -/
def Fuse.poll_ready (f : Fuse Req Resp) : Fuse Req Resp × Poll (Except IoErr Unit) :=
  ({ f with inner := (f.inner.poll_ready).1 }, (f.inner.poll_ready).2)

/-- Fused sink `poll_flush` (delegates). -/
def Fuse.poll_flush (f : Fuse Req Resp) : Fuse Req Resp × Poll (Except IoErr Unit) :=
  ({ f with inner := (f.inner.poll_flush).1 }, (f.inner.poll_flush).2)

/-- Fused sink `start_send` (delegates). -/
def Fuse.start_send (f : Fuse Req Resp) (r : Response Resp) :
    Fuse Req Resp × Except IoErr Unit :=
  ({ f with inner := (f.inner.start_send r).1 }, (f.inner.start_send r).2)

end FuseOps

/-! ## BaseChannel -/

/-- `server::Config`. -/
structure Config where
  pending_response_buffer : Nat
deriving Repr, DecidableEq

/-- `Config::default()`. -/
def Config.default : Config := ⟨100⟩

/-- `BaseChannel<Req, Resp, T>`: a fused transport plus the in-flight
registry (the `ghost` marker field carries no data and is omitted). -/
structure BaseChannel (Req Resp : Type) : Type where
  config : Config
  transport : Fuse Req Resp
  in_flight_requests : InFlightRequests
deriving Repr, DecidableEq

section BaseChannelOps

variable {Req Resp : Type}

/-- `BaseChannel::new(config, transport)`: fuses the transport and starts
with an empty registry. -/
def BaseChannel.new (config : Config) (transport : TransportState Req Resp) :
    BaseChannel Req Resp :=
  { config, transport := { inner := transport, done := false },
    in_flight_requests := InFlightRequests.default }

/-- The read loop of `BaseChannel::poll_next` (source lines 283–312):
requests are yielded, cancellations are handled in place (`cancel_request`
then continue reading), end-of-stream and errors are surfaced, `Pending`
propagates. Fuel `readScript.length + 1` suffices because every `Cancel`
iteration consumes one scripted read event. -/
def BaseChannel.readLoop : Nat → BaseChannel Req Resp →
    BaseChannel Req Resp × Poll (Option (Except IoErr (Request Req)))
  | 0, ch => (ch, .pending)
  | fuel + 1, ch =>
    let p := ch.transport.poll_next
    let ch' := { ch with transport := p.1 }
    match p.2 with
    | .ready (some (.ok (.request req))) => (ch', .ready (some (.ok req)))
    | .ready (some (.ok (.cancel _tc request_id))) =>
      BaseChannel.readLoop fuel
        { ch' with
          in_flight_requests := (ch'.in_flight_requests.cancel_request request_id).1 }
    | .ready (some (.error e)) => (ch', .ready (some (.error e)))
    | .ready none => (ch', .ready none)
    | .pending => (ch', .pending)

/-- `<BaseChannel as Stream>::poll_next` (source lines 276–313): first drain
every currently-expired deadline from the registry, then run the transport
read loop. `now` is the clock instant of this poll. -/
def BaseChannel.poll_next (ch : BaseChannel Req Resp) (now : Time) :
    BaseChannel Req Resp × Poll (Option (Except IoErr (Request Req))) :=
  let ifr := drainExpired now (ch.in_flight_requests.len + 1) ch.in_flight_requests
  let ch' := { ch with in_flight_requests := ifr }
  BaseChannel.readLoop (ch'.transport.inner.readScript.length + 1) ch'

/-- `<BaseChannel as Sink>::poll_ready`: delegates to the transport. -/
def BaseChannel.poll_ready (ch : BaseChannel Req Resp) :
    BaseChannel Req Resp × Poll (Except IoErr Unit) :=
  ({ ch with transport := (ch.transport.poll_ready).1 }, (ch.transport.poll_ready).2)

/-- `<BaseChannel as Sink>::start_send` (source lines 326–332): remove the
response's id from the in-flight registry, then forward the response to the
transport. -/
def BaseChannel.start_send (ch : BaseChannel Req Resp) (response : Response Resp) :
    BaseChannel Req Resp × Except IoErr Unit :=
  let ifr := ch.in_flight_requests.remove_request response.request_id
  let tr := (ch.transport.start_send response).1
  ({ ch with in_flight_requests := ifr, transport := tr },
    (ch.transport.start_send response).2)

/-- `<BaseChannel as Sink>::poll_flush`: delegates to the transport. -/
def BaseChannel.poll_flush (ch : BaseChannel Req Resp) :
    BaseChannel Req Resp × Poll (Except IoErr Unit) :=
  ({ ch with transport := (ch.transport.poll_flush).1 }, (ch.transport.poll_flush).2)

/-- `<BaseChannel as Channel>::start_request`: delegates to the registry. -/
def BaseChannel.start_request (ch : BaseChannel Req Resp) (id : RequestId)
    (deadline : Time) :
    Except AlreadyExistsError (BaseChannel Req Resp × AbortRegistration) :=
  match ch.in_flight_requests.start_request id deadline with
  | .ok (ifr, reg) => .ok ({ ch with in_flight_requests := ifr }, reg)
  | .error e => .error e

end BaseChannelOps

/-! ## The response fan-in queue and the Requests pump -/

/-- The bounded tokio mpsc channel of `(context, response)` pairs created by
`Channel::requests`. `handler_senders` counts the `Sender` clones handed out
to request handlers that are still alive; it does **not** count the
`responses_tx` clone stored inside the `Requests` struct itself, which exists
for as long as the pump does. `receiver_alive` says whether the receiving
half (owned by the pump) still exists — it matters only to handler-side
sends. -/
structure Mpsc (Resp : Type) : Type where
  queued : List (Context × Response Resp)
  handler_senders : Nat
  receiver_alive : Bool
deriving Repr, DecidableEq

section MpscOps

variable {Resp : Type}

/-- `Sender::send(...).await` as seen from a handler after the await
resolves: delivered when the receiver still exists, `Err` (response
discarded) when the pump is gone. -/
def Mpsc.send (q : Mpsc Resp) (m : Context × Response Resp) : Mpsc Resp × Bool :=
  if q.receiver_alive then ({ q with queued := q.queued ++ [m] }, true)
  else (q, false)

end MpscOps

/-- `Requests<C>`: the per-channel pump. It owns the channel, the receiving
half of the response queue (`pending_responses`), and one `Sender` clone
(`responses_tx`). The Lean field `responses_tx` records whether that clone
is alive: it is `true` for every pump built by `Channel::requests` and no
pump operation ever changes it — in Rust the field simply exists for the
struct's whole lifetime. The `false` states exist in the model only to make
the queue-terminated code path expressible. -/
structure Requests (Req Resp : Type) : Type where
  channel : BaseChannel Req Resp
  pending_responses : Mpsc Resp
  responses_tx : Bool
deriving Repr, DecidableEq

/-- `Request` handle produced by `Requests::pump_read` and given to user
code. Its `response_tx` field (a `Sender` clone) is represented in the
queue's `handler_senders` count rather than carried here. -/
structure InFlightRequest (Req Resp : Type) : Type where
  request : Request Req
  abort_registration : AbortRegistration
deriving Repr, DecidableEq

/-- `Channel::requests` (source lines 240–251): a fresh pump with an empty
bounded queue whose only live sender is the struct's own `responses_tx`. -/
def Channel.requests {Req Resp : Type} (channel : BaseChannel Req Resp) :
    Requests Req Resp :=
  { channel,
    pending_responses := { queued := [], handler_senders := 0, receiver_alive := true },
    responses_tx := true }

section RequestsOps

variable {Req Resp : Type}

/-- `tokio::sync::mpsc::Receiver::poll_recv` as called on
`pending_responses` by the pump: a queued message is delivered; an empty
queue reports closed (`Ready(None)`) only when *all* senders are gone —
no handler-held clone survives and the struct's own `responses_tx` is gone
too. -/
def Requests.poll_recv (s : Requests Req Resp) :
    Requests Req Resp × Poll (Option (Context × Response Resp)) :=
  match s.pending_responses.queued with
  | m :: rest =>
    ({ s with pending_responses := { s.pending_responses with queued := rest } },
      .ready (some m))
  | [] =>
    if s.pending_responses.handler_senders = 0 ∧ s.responses_tx = false then
      (s, .ready none)
    else (s, .pending)

/-- The loop body of `Requests::pump_read` (source lines 400–440): poll the
channel; on a request, `start_request` it — `Ok` yields an
`InFlightRequest` carrying a fresh `responses_tx.clone()` (one more live
handler sender), `AlreadyExists` logs and continues the loop. End-of-stream,
errors and `Pending` are surfaced. Each `AlreadyExists` iteration consumes
at least one scripted read event, so fuel `readScript.length + 1` suffices. -/
def Requests.pumpReadLoop : Nat → Requests Req Resp → Time →
    Requests Req Resp × Poll (Option (Except IoErr (InFlightRequest Req Resp)))
  | 0, s, _ => (s, .pending)
  | fuel + 1, s, now =>
    let p := s.channel.poll_next now
    let s' := { s with channel := p.1 }
    match p.2 with
    | .ready (some (.ok request)) =>
      match s'.channel.start_request request.id request.context.deadline with
      | .ok (ch2, abort_registration) =>
        let q :=
          { s'.pending_responses with
            handler_senders := s'.pending_responses.handler_senders + 1 }
        ({ s' with channel := ch2, pending_responses := q },
          .ready (some (.ok { request, abort_registration })))
      | .error _ => Requests.pumpReadLoop fuel s' now
    | .ready (some (.error e)) => (s', .ready (some (.error e)))
    | .ready none => (s', .ready none)
    | .pending => (s', .pending)

/-- `Requests::pump_read`. -/
def Requests.pump_read (s : Requests Req Resp) (now : Time) :
    Requests Req Resp × Poll (Option (Except IoErr (InFlightRequest Req Resp))) :=
  Requests.pumpReadLoop (s.channel.transport.inner.readScript.length + 1) s now

/-- The `while poll_ready(cx)?.is_pending() { ready!(poll_flush(cx)?) }`
loop opening `Requests::poll_next_response` (source lines 488–491).
Result `ready (.ok ())` means the transport is write-ready; `pending` and
errors are surfaced. Every iteration consumes a scripted ready or flush
event, so fuel `readyScript.length + flushScript.length + 1` suffices. -/
def Requests.ensureReadyLoop : Nat → Requests Req Resp →
    Requests Req Resp × Poll (Except IoErr Unit)
  | 0, s => (s, .pending)
  | fuel + 1, s =>
    let p := s.channel.poll_ready
    let s' := { s with channel := p.1 }
    match p.2 with
    | .ready (.ok ()) => (s', .ready (.ok ()))
    | .ready (.error e) => (s', .ready (.error e))
    | .pending =>
      let q := s'.channel.poll_flush
      let s2 := { s' with channel := q.1 }
      match q.2 with
      | .ready (.ok ()) => Requests.ensureReadyLoop fuel s2
      | .ready (.error e) => (s2, .ready (.error e))
      | .pending => (s2, .pending)

/-- `Requests::poll_next_response` (source lines 484–500): flush while the
transport is not write-ready, and only once it is ready receive from the
response queue. -/
def Requests.poll_next_response (s : Requests Req Resp) :
    Requests Req Resp × Poll (Option (Except IoErr (Context × Response Resp))) :=
  let fuel := s.channel.transport.inner.readyScript.length +
    s.channel.transport.inner.flushScript.length + 1
  let p := Requests.ensureReadyLoop fuel s
  match p.2 with
  | .ready (.error e) => (p.1, .ready (some (.error e)))
  | .pending => (p.1, .pending)
  | .ready (.ok ()) =>
    let q := Requests.poll_recv p.1
    match q.2 with
    | .ready (some m) => (q.1, .ready (some (.ok m)))
    | .ready none => (q.1, .ready none)
    | .pending => (q.1, .pending)

/-- `Requests::pump_write` (source lines 442–482): stage an available
response with `start_send`; on a terminated queue flush and finish; with no
response available flush and either finish (read half closed and no
in-flight requests) or stay pending. -/
def Requests.pump_write (s : Requests Req Resp) (read_half_closed : Bool) :
    Requests Req Resp × Poll (Option (Except IoErr Unit)) :=
  let p := Requests.poll_next_response s
  match p.2 with
  | .ready (some (.ok (_context, response))) =>
    let q := p.1.channel.start_send response
    let s2 := { p.1 with channel := q.1 }
    match q.2 with
    | .ok () => (s2, .ready (some (.ok ())))
    | .error e => (s2, .ready (some (.error e)))
  | .ready (some (.error e)) => (p.1, .ready (some (.error e)))
  | .ready none =>
    let q := p.1.channel.poll_flush
    let s2 := { p.1 with channel := q.1 }
    match q.2 with
    | .ready (.ok ()) => (s2, .ready none)
    | .ready (.error e) => (s2, .ready (some (.error e)))
    | .pending => (s2, .pending)
  | .pending =>
    let q := p.1.channel.poll_flush
    let s2 := { p.1 with channel := q.1 }
    match q.2 with
    | .ready (.ok ()) =>
      if read_half_closed && s2.channel.in_flight_requests.len == 0 then
        (s2, .ready none)
      else
        (s2, .pending)
    | .ready (.error e) => (s2, .ready (some (.error e)))
    | .pending => (s2, .pending)

/-- The loop of `<Requests as Stream>::poll_next` (source lines 571–588):
one `pump_read` (whose `?` surfaces errors before anything else), then one
`pump_write` (whose `?` surfaces errors before the result matrix), then the
termination matrix. The loop repeats only when `pump_write` made progress,
which consumes one queued response, so fuel `queued.length + 1` suffices. -/
def Requests.pollNextLoop : Nat → Requests Req Resp → Time →
    Requests Req Resp × Poll (Option (Except IoErr (InFlightRequest Req Resp)))
  | 0, s, _ => (s, .pending)
  | fuel + 1, s, now =>
    let p := Requests.pump_read s now
    match p.2 with
    | .ready (some (.error e)) => (p.1, .ready (some (.error e)))
    | _ =>
      let read_closed := match p.2 with
        | .ready none => true
        | _ => false
      let q := Requests.pump_write p.1 read_closed
      match q.2 with
      | .ready (some (.error e)) => (q.1, .ready (some (.error e)))
      | _ =>
        match p.2, q.2 with
        | .ready none, .ready none => (q.1, .ready none)
        | .ready (some (.ok h)), _ => (q.1, .ready (some (.ok h)))
        | _, .ready (some (.ok ())) => Requests.pollNextLoop fuel q.1 now
        | _, _ => (q.1, .pending)

/-- `<Requests as Stream>::poll_next`. -/
def Requests.poll_next (s : Requests Req Resp) (now : Time) :
    Requests Req Resp × Poll (Option (Except IoErr (InFlightRequest Req Resp))) :=
  Requests.pollNextLoop (s.pending_responses.queued.length + 1) s now

end RequestsOps

/-! ## InFlightRequest::execute -/

section ExecuteOps

variable {Req Resp : Type}

/-- `InFlightRequest::execute` (source lines 536–562): the handler future,
evaluated to its final effect on the response queue. The `Abortable`
wrapper is represented by the oracle `aborted`: `true` means the abort
handle fired (cancellation or deadline) before the service future and queue
send finished, in which case the future is terminated and no response is
sent (`unwrap_or_else(|_| {})` turns the `Aborted` error into `()`).
Otherwise the service function's value is wrapped in
`Response { request_id, message: Ok(..) }`, pushed onto the response queue
with the request's context, and a failed send (pump gone) is silently
discarded (`let _ = ...`). The future's output is `()` in every case. -/
def InFlightRequest.execute (self : InFlightRequest Req Resp)
    (serve : Context → Req → Resp) (aborted : Bool) (q : Mpsc Resp) :
    Mpsc Resp × Unit :=
  if aborted then
    (q, ())
  else
    let response : Response Resp :=
      { request_id := self.request.id,
        message := .ok (serve self.request.context self.request.message) }
    ((q.send (self.request.context, response)).1, ())

end ExecuteOps

/-! ## Registry lemmas -/

theorem contains_remove_request (s : InFlightRequests) (id : RequestId) :
    (s.remove_request id).contains id = false := by
  simp only [InFlightRequests.remove_request, InFlightRequests.contains]
  rw [List.any_eq_false]
  intro e he
  rw [List.mem_filter] at he
  simpa using he.2

theorem remove_request_idem (s : InFlightRequests) (id : RequestId) :
    (s.remove_request id).remove_request id = s.remove_request id := by
  simp [InFlightRequests.remove_request, List.filter_filter]

theorem cancel_request_mem {s : InFlightRequests} {id : RequestId} {e : IfrEntry}
    (h : e ∈ (s.cancel_request id).1.entries) : e ∈ s.entries := by
  unfold InFlightRequests.cancel_request at h
  by_cases hc : s.contains id
  · simp only [hc, if_true] at h
    exact List.mem_of_mem_filter h
  · simp only [hc] at h
    simpa using h

theorem minEntry_eq_none {l : List IfrEntry} (h : minEntry l = none) : l = [] := by
  cases l with
  | nil => rfl
  | cons e es =>
    rw [minEntry] at h
    rcases hm : minEntry es with _ | m <;> rw [hm] at h
    · simp at h
    · by_cases hle : e.deadline ≤ m.deadline <;> simp [hle] at h

theorem minEntry_mem {l : List IfrEntry} :
    ∀ {m : IfrEntry}, minEntry l = some m → m ∈ l := by
  induction l with
  | nil => intro m h; simp [minEntry] at h
  | cons e es ih =>
    intro m h
    rw [minEntry] at h
    rcases hm : minEntry es with _ | m' <;> rw [hm] at h
    · simp at h
      simp [h]
    · by_cases hle : e.deadline ≤ m'.deadline
      · simp [hle] at h
        simp [h]
      · simp [hle] at h
        subst h
        exact List.mem_cons_of_mem _ (ih hm)

theorem minEntry_le {l : List IfrEntry} :
    ∀ {m : IfrEntry}, minEntry l = some m → ∀ e ∈ l, m.deadline ≤ e.deadline := by
  induction l with
  | nil => intro m h; simp [minEntry] at h
  | cons e es ih =>
    intro m h x hx
    rw [minEntry] at h
    rcases hm : minEntry es with _ | m' <;> rw [hm] at h
    · simp at h
      subst h
      rcases List.mem_cons.mp hx with hx | hx
      · rw [hx]
      · rw [minEntry_eq_none hm] at hx
        simp at hx
    · by_cases hle : e.deadline ≤ m'.deadline
      · simp [hle] at h
        subst h
        rcases List.mem_cons.mp hx with hx | hx
        · rw [hx]
        · exact le_trans hle (ih hm x hx)
      · simp [hle] at h
        subst h
        rcases List.mem_cons.mp hx with hx | hx
        · rw [hx]
          exact le_of_not_le hle
        · exact ih hm x hx

theorem poll_expired_eq_none {s : InFlightRequests} {now : Time}
    (h : minEntry s.entries = none) : s.poll_expired now = (s, .ready none) := by
  rw [InFlightRequests.poll_expired, h]

theorem poll_expired_eq_pop {s : InFlightRequests} {now : Time} {m : IfrEntry}
    (h : minEntry s.entries = some m) (hd : m.deadline ≤ now) :
    s.poll_expired now =
      (⟨s.entries.filter (fun x => x.id != m.id), m.id :: s.firedIds⟩,
        .ready (some m.id)) := by
  rw [InFlightRequests.poll_expired, h]
  simp [hd]

theorem poll_expired_eq_pending {s : InFlightRequests} {now : Time} {m : IfrEntry}
    (h : minEntry s.entries = some m) (hd : ¬m.deadline ≤ now) :
    s.poll_expired now = (s, .pending) := by
  rw [InFlightRequests.poll_expired, h]
  simp [hd]

theorem drainExpired_complete (now : Time) :
    ∀ (fuel : Nat) (s : InFlightRequests), s.len ≤ fuel →
      ∀ e ∈ (drainExpired now fuel s).entries, now < e.deadline := by
  intro fuel
  induction fuel with
  | zero =>
    intro s hlen e he
    rw [drainExpired] at he
    have : s.entries = [] := List.length_eq_zero.mp (Nat.le_zero.mp hlen)
    rw [this] at he
    simp at he
  | succ fuel ih =>
    intro s hlen e he
    rcases hmin : minEntry s.entries with _ | m
    · have hstep : drainExpired now (fuel + 1) s = s := by
        rw [drainExpired, poll_expired_eq_none hmin]
      rw [hstep, minEntry_eq_none hmin] at he
      simp at he
    · by_cases hd : m.deadline ≤ now
      · have hstep : drainExpired now (fuel + 1) s =
            drainExpired now fuel
              ⟨s.entries.filter (fun x => x.id != m.id), m.id :: s.firedIds⟩ := by
          rw [drainExpired, poll_expired_eq_pop hmin hd]
        rw [hstep] at he
        refine ih _ ?_ e he
        have hlt : (s.entries.filter (fun x => x.id != m.id)).length <
            s.entries.length := by
          rw [List.length_filter_lt_length_iff_exists]
          exact ⟨m, minEntry_mem hmin, by simp⟩
        exact Nat.le_of_lt_succ (Nat.lt_of_lt_of_le hlt hlen)
      · have hstep : drainExpired now (fuel + 1) s = s := by
          rw [drainExpired, poll_expired_eq_pending hmin hd]
        rw [hstep] at he
        exact Nat.lt_of_not_le fun hc => hd (le_trans (minEntry_le hmin e he) hc)

/-! ## Read-loop lemmas -/

section ReadLoopLemmas

variable {Req Resp : Type}

theorem transport_poll_next_written (t : TransportState Req Resp) :
    (t.poll_next).1.written = t.written := by
  rcases t with ⟨rs, rdy, fl, snd, wr⟩
  cases rs with
  | nil => rfl
  | cons ev rest => cases ev <;> rfl

theorem fuse_poll_next_written (f : Fuse Req Resp) :
    (f.poll_next).1.inner.written = f.inner.written := by
  cases hd : f.done with
  | true => simp [Fuse.poll_next, hd]
  | false =>
    rcases hp : f.inner.poll_next with ⟨t, r⟩
    have hw : t.written = f.inner.written := by
      have h := transport_poll_next_written f.inner
      rw [hp] at h
      exact h
    rcases r with (_ | (e | m)) | _ <;> simp [Fuse.poll_next, hd, hp, hw]

theorem readLoop_written :
    ∀ (fuel : Nat) (ch : BaseChannel Req Resp),
      (BaseChannel.readLoop fuel ch).1.transport.inner.written =
        ch.transport.inner.written := by
  intro fuel
  induction fuel with
  | zero => intro ch; rfl
  | succ fuel ih =>
    intro ch
    rcases hp : ch.transport.poll_next with ⟨tr, r⟩
    have hw : tr.inner.written = ch.transport.inner.written := by
      have h := fuse_poll_next_written ch.transport
      rw [hp] at h
      exact h
    rcases r with (_ | (e | (rq | ⟨tc, cid⟩))) | _ <;>
      simp [BaseChannel.readLoop, hp, ih, hw]

theorem readLoop_entries_pred (P : IfrEntry → Prop) :
    ∀ (fuel : Nat) (ch : BaseChannel Req Resp),
      (∀ e ∈ ch.in_flight_requests.entries, P e) →
      ∀ e ∈ (BaseChannel.readLoop fuel ch).1.in_flight_requests.entries, P e := by
  intro fuel
  induction fuel with
  | zero => intro ch h; exact h
  | succ fuel ih =>
    intro ch h e he
    rcases hp : ch.transport.poll_next with ⟨tr, r⟩
    rw [BaseChannel.readLoop] at he
    simp only [hp] at he
    rcases r with (_ | (er | (rq | ⟨tc, cid⟩))) | _
    · exact h e he
    · exact h e he
    · exact h e he
    · exact ih _ (fun x hx => h x (cancel_request_mem hx)) e he
    · exact h e he

end ReadLoopLemmas

/-! ## Claim C1 -/

theorem transport_start_send_ok_written {Req Resp : Type}
    {t : TransportState Req Resp} {r : Response Resp}
    (h : (t.start_send r).2 = .ok ()) :
    (t.start_send r).1.written = t.written ++ [r] := by
  rw [TransportState.start_send] at h ⊢
  rcases hs : t.sendScript with _ | ⟨e, rest⟩
  · rfl
  · rcases e with _ | e
    · rfl
    · rw [hs] at h
      exact Except.noConfusion h

/-- C1: `BaseChannel::start_send` removes the response's id from the
in-flight registry (idempotently, via `remove_request`) before the response
is forwarded to the transport: the registry update is exactly
`remove_request response.request_id`, the id is absent afterwards, the
transport interaction is the unmodified `start_send` of the underlying
(fused) transport, and in particular even when the transport's `start_send`
returns an error the registry no longer contains the id. -/
theorem c1_start_send_removes_before_forwarding {Req Resp : Type}
    (ch : BaseChannel Req Resp) (r : Response Resp) :
    (BaseChannel.start_send ch r).1.in_flight_requests =
        ch.in_flight_requests.remove_request r.request_id ∧
    (BaseChannel.start_send ch r).1.in_flight_requests.contains r.request_id = false ∧
    ((ch.in_flight_requests.remove_request r.request_id).remove_request r.request_id =
        ch.in_flight_requests.remove_request r.request_id) ∧
    (BaseChannel.start_send ch r).1.transport = (ch.transport.start_send r).1 ∧
    (BaseChannel.start_send ch r).2 = (ch.transport.start_send r).2 ∧
    (∀ e : IoErr, (BaseChannel.start_send ch r).2 = .error e →
      (BaseChannel.start_send ch r).1.in_flight_requests.contains r.request_id = false) :=
  ⟨rfl, contains_remove_request _ _, remove_request_idem _ _, rfl, rfl,
    fun _ _ => contains_remove_request _ _⟩

/-- An empty transport script, shared base state for concrete scenarios. -/
def baseT : TransportState Nat Nat :=
  { readScript := [], readyScript := [], flushScript := [], sendScript := [],
    written := [] }

/-- Concrete channel for the C1 witness: two requests in flight, a transport
whose next `start_send` fails with error 3. -/
def c1ch : BaseChannel Nat Nat :=
  { config := Config.default,
    transport := { inner := { baseT with sendScript := [some 3] }, done := false },
    in_flight_requests := ⟨[⟨1, 10⟩, ⟨2, 20⟩], []⟩ }

/-- Witness for C1: the transport rejects the send with error 3, and the
registry entry for the response's id is gone anyway. -/
theorem c1_witness :
    (BaseChannel.start_send c1ch ⟨1, .ok 5⟩).2 = .error 3 ∧
    (BaseChannel.start_send c1ch ⟨1, .ok 5⟩).1.in_flight_requests.contains 1 = false := by
  refine ⟨by decide, ?_⟩
  exact (c1_start_send_removes_before_forwarding c1ch ⟨1, .ok 5⟩).2.2.2.2.2 3 (by decide)

/-! ## Fuse permanence lemmas (claim C10) -/

section FuseLemmas

variable {Req Resp : Type}

theorem fuse_poll_next_done {f : Fuse Req Resp} (h : f.done = true) :
    f.poll_next = (f, .ready none) := by
  rw [Fuse.poll_next, h]
  simp

theorem fuse_poll_next_ready_none_done {f f' : Fuse Req Resp}
    (h : f.poll_next = (f', .ready none)) : f'.done = true := by
  cases hd : f.done with
  | true =>
    rw [fuse_poll_next_done hd] at h
    have h1 := congrArg Prod.fst h
    simp only [Prod.fst] at h1
    rw [← h1]
    exact hd
  | false =>
    simp only [Fuse.poll_next, hd, Bool.false_eq_true, if_false] at h
    rcases hp : (f.inner.poll_next).2 with (_ | (e | m)) | _ <;> rw [hp] at h
    · have h1 := congrArg Prod.fst h
      simp only [Prod.fst] at h1
      rw [← h1]
    · have h2 := congrArg Prod.snd h
      simp at h2
    · have h2 := congrArg Prod.snd h
      simp at h2
    · have h2 := congrArg Prod.snd h
      simp at h2

theorem readLoop_done (ch : BaseChannel Req Resp) (fuel : Nat)
    (h : ch.transport.done = true) :
    BaseChannel.readLoop (fuel + 1) ch = (ch, .ready none) := by
  rw [BaseChannel.readLoop]
  rw [fuse_poll_next_done h]

theorem readLoop_ready_none_done :
    ∀ (fuel : Nat) (ch ch' : BaseChannel Req Resp),
      BaseChannel.readLoop fuel ch = (ch', .ready none) → ch'.transport.done = true := by
  intro fuel
  induction fuel with
  | zero =>
    intro ch ch' h
    have h2 := congrArg Prod.snd h
    simp [BaseChannel.readLoop] at h2
  | succ fuel ih =>
    intro ch ch' h
    rcases hp : ch.transport.poll_next with ⟨tr, r⟩
    rw [BaseChannel.readLoop] at h
    simp only [hp] at h
    rcases r with (_ | (er | (rq | ⟨tc, cid⟩))) | _
    · have h1 := congrArg Prod.fst h
      simp at h1
      rw [← h1]
      exact fuse_poll_next_ready_none_done hp
    · have h2 := congrArg Prod.snd h
      simp at h2
    · have h2 := congrArg Prod.snd h
      simp at h2
    · exact ih _ _ h
    · have h2 := congrArg Prod.snd h
      simp at h2

theorem poll_next_done {ch : BaseChannel Req Resp} {now : Time}
    (h : ch.transport.done = true) :
    (BaseChannel.poll_next ch now).2 = .ready none ∧
      (BaseChannel.poll_next ch now).1.transport = ch.transport := by
  have key := readLoop_done
    { ch with
      in_flight_requests :=
        drainExpired now (ch.in_flight_requests.len + 1) ch.in_flight_requests }
    ch.transport.inner.readScript.length h
  simp only [BaseChannel.poll_next]
  rw [key]
  exact ⟨rfl, rfl⟩

theorem poll_next_ready_none_done {ch ch' : BaseChannel Req Resp} {now : Time}
    (h : BaseChannel.poll_next ch now = (ch', .ready none)) :
    ch'.transport.done = true := by
  rw [BaseChannel.poll_next] at h
  exact readLoop_ready_none_done _ _ _ h

end FuseLemmas

/-- Repeated polling of a `BaseChannel` at a sequence of clock instants,
collecting the stream outcomes. -/
def BaseChannel.pollMany {Req Resp : Type} (ch : BaseChannel Req Resp) :
    List Time → List (Poll (Option (Except IoErr (Request Req))))
  | [] => []
  | now :: rest =>
    (ch.poll_next now).2 :: BaseChannel.pollMany (ch.poll_next now).1 rest

theorem pollMany_done {Req Resp : Type} :
    ∀ (nows : List Time) (ch : BaseChannel Req Resp), ch.transport.done = true →
      ∀ r ∈ ch.pollMany nows, r = .ready none := by
  intro nows
  induction nows with
  | nil => intro ch _ r hr; simp [BaseChannel.pollMany] at hr
  | cons now rest ih =>
    intro ch h r hr
    rw [BaseChannel.pollMany] at hr
    rcases List.mem_cons.mp hr with hr | hr
    · rw [hr]
      exact (poll_next_done h).1
    · refine ih _ ?_ r hr
      rw [(poll_next_done h).2]
      exact h

/-- C10: `BaseChannel::new` wraps the transport in `Fuse`, so even for an
underlying transport that is not fusable (its script may hold further
messages after end-of-stream), once `BaseChannel::poll_next` has returned
`Ready(None)` every subsequent `poll_next`, at any sequence of clock
instants, also returns `Ready(None)` and never yields another request. -/
theorem c10_fused_eof_is_permanent {Req Resp : Type}
    (ch ch' : BaseChannel Req Resp) (now : Time)
    (h : BaseChannel.poll_next ch now = (ch', .ready none)) :
    ∀ (nows : List Time), ∀ r ∈ ch'.pollMany nows, r = .ready none :=
  fun nows => pollMany_done nows ch' (poll_next_ready_none_done h)

/-- Channel on a non-fusable transport script for the C10 witness: the raw
script offers another request *after* end-of-stream. -/
def c10ch : BaseChannel Nat Nat :=
  BaseChannel.new Config.default
    { baseT with
      readScript := [.eof, .msg (.request ⟨⟨10, ⟨5⟩⟩, 1, 42⟩)] }

/-- Witness for C10: the first poll hits end-of-stream; the two following
polls both return `Ready(None)` even though the unfused script still holds a
request. -/
theorem c10_witness :
    (BaseChannel.poll_next c10ch 0).2 = .ready none ∧
    (∀ r ∈ (BaseChannel.poll_next c10ch 0).1.pollMany [1, 2], r = .ready none) := by
  refine ⟨by decide, ?_⟩
  exact c10_fused_eof_is_permanent c10ch _ 0 (by decide) [1, 2]

/-! ## Claim C6 -/

/-- C6: at the start of every `BaseChannel::poll_next`, all currently
expired deadlines are drained from the registry (`poll_expired` is run until
it stops producing ids) before the transport read loop runs on the drained
state; consequently no entry with an expired deadline survives the poll, and
no response is synthesized for an expired id (the transport's written
responses are untouched by `poll_next`). -/
theorem c6_drains_expired_before_read {Req Resp : Type}
    (ch : BaseChannel Req Resp) (now : Time) :
    (∀ e ∈ (drainExpired now (ch.in_flight_requests.len + 1)
        ch.in_flight_requests).entries, now < e.deadline) ∧
    (∀ e ∈ (BaseChannel.poll_next ch now).1.in_flight_requests.entries,
        now < e.deadline) ∧
    (BaseChannel.poll_next ch now).1.transport.inner.written =
      ch.transport.inner.written := by
  have hdrain := drainExpired_complete now (ch.in_flight_requests.len + 1)
    ch.in_flight_requests (Nat.le_succ _)
  refine ⟨hdrain, ?_, ?_⟩
  · simp only [BaseChannel.poll_next]
    exact readLoop_entries_pred _ _ _ hdrain
  · simp only [BaseChannel.poll_next]
    exact readLoop_written _ _

/-- Channel for the C6 witness: ids 9 (deadline 3, expired at 50) and 8
(deadline 100) in flight, a request waiting on the wire. -/
def c6ch : BaseChannel Nat Nat :=
  { BaseChannel.new Config.default
      { baseT with readScript := [.msg (.request ⟨⟨10, ⟨5⟩⟩, 1, 42⟩)] } with
    in_flight_requests := ⟨[⟨9, 3⟩, ⟨8, 100⟩], []⟩ }

/-- Witness for C6 at clock 50: the surviving entry 8 has an unexpired
deadline, entry 9 was drained (and its handle fired), and nothing was
written to the transport. -/
theorem c6_witness :
    (50 : Time) < 100 ∧
    (BaseChannel.poll_next c6ch 50).1.in_flight_requests =
      ⟨[⟨8, 100⟩], [9]⟩ ∧
    (BaseChannel.poll_next c6ch 50).1.transport.inner.written = [] := by
  refine ⟨?_, by decide, by decide⟩
  exact (c6_drains_expired_before_read c6ch 50).2.1 ⟨8, 100⟩ (by decide)

/-! ## Claim C5 -/

/-- C5: for every `ClientMessage` read by `BaseChannel::poll_next`: a
`Request` at the head of the wire is yielded to the caller; a `Cancel` is
never yielded — instead `cancel_request` runs on its id and the read loop
continues on the remaining script; a `Cancel` for an id not in the registry
leaves the registry unchanged and `cancel_request` reports `false`;
transport end-of-stream yields `Ready(None)`; and a transport error is
surfaced to the caller. -/
theorem c5_poll_next_message_handling {Req Resp : Type}
    (ch : BaseChannel Req Resp) (now : Time) :
    (∀ (r : Request Req) (rest : List (ReadEv Req)),
      ch.transport.done = false →
      ch.transport.inner.readScript = .msg (.request r) :: rest →
      (BaseChannel.poll_next ch now).2 = .ready (some (.ok r))) ∧
    (∀ (tc : TraceContext) (id : RequestId) (rest : List (ReadEv Req)) (fuel : Nat),
      ch.transport.done = false →
      ch.transport.inner.readScript = .msg (.cancel tc id) :: rest →
      BaseChannel.readLoop (fuel + 1) ch =
        BaseChannel.readLoop fuel
          ⟨ch.config, ⟨{ ch.transport.inner with readScript := rest }, false⟩,
            (ch.in_flight_requests.cancel_request id).1⟩) ∧
    (∀ (reg : InFlightRequests) (id : RequestId),
      reg.contains id = false → reg.cancel_request id = (reg, false)) ∧
    (∀ (rest : List (ReadEv Req)),
      ch.transport.done = false →
      ch.transport.inner.readScript = .eof :: rest →
      (BaseChannel.poll_next ch now).2 = .ready none) ∧
    (∀ (e : IoErr) (rest : List (ReadEv Req)),
      ch.transport.done = false →
      ch.transport.inner.readScript = .fail e :: rest →
      (BaseChannel.poll_next ch now).2 = .ready (some (.error e))) := by
  obtain ⟨cfg, ⟨⟨rs, rdy, fl, snd, wr⟩, dn⟩, ifr⟩ := ch
  refine ⟨?_, ?_, ?_, ?_, ?_⟩
  · intro r rest hd hs
    simp only at hd hs
    subst hd
    subst hs
    simp [BaseChannel.poll_next, BaseChannel.readLoop, Fuse.poll_next,
      TransportState.poll_next]
  · intro tc id rest fuel hd hs
    simp only at hd hs
    subst hd
    subst hs
    simp [BaseChannel.readLoop, Fuse.poll_next, TransportState.poll_next]
  · intro reg id h
    rw [InFlightRequests.cancel_request, h]
    simp
  · intro rest hd hs
    simp only at hd hs
    subst hd
    subst hs
    simp [BaseChannel.poll_next, BaseChannel.readLoop, Fuse.poll_next,
      TransportState.poll_next]
  · intro e rest hd hs
    simp only at hd hs
    subst hd
    subst hs
    simp [BaseChannel.poll_next, BaseChannel.readLoop, Fuse.poll_next,
      TransportState.poll_next]

/-- Channel for the C5 witness: a cancel for in-flight id 9, then a cancel
for unknown id 7, then a request, with id 9 in flight. -/
def c5ch : BaseChannel Nat Nat :=
  { BaseChannel.new Config.default
      { baseT with
        readScript := [.msg (.cancel ⟨1⟩ 9), .msg (.cancel ⟨2⟩ 7),
          .msg (.request ⟨⟨10, ⟨5⟩⟩, 1, 42⟩)] } with
    in_flight_requests := ⟨[⟨9, 1000⟩], []⟩ }

/-- Channel for the C5 witness with a request at the head of the wire. -/
def c5chReq : BaseChannel Nat Nat :=
  BaseChannel.new Config.default
    { baseT with readScript := [.msg (.request ⟨⟨10, ⟨5⟩⟩, 1, 42⟩)] }

/-- Channel for the C5 witness with end-of-stream at the head of the wire. -/
def c5chEof : BaseChannel Nat Nat :=
  BaseChannel.new Config.default { baseT with readScript := [.eof] }

/-- Channel for the C5 witness with a transport error at the head of the wire. -/
def c5chErr : BaseChannel Nat Nat :=
  BaseChannel.new Config.default { baseT with readScript := [.fail 7] }

/-- Witness for C5: a request is yielded; the cancel for in-flight id 9 is
consumed in place with `cancel_request`; a cancel for unknown id 7 leaves the
registry unchanged and reports false; end-of-stream yields `Ready(None)`;
an error is surfaced. -/
theorem c5_witness :
    (BaseChannel.poll_next c5chReq 0).2 =
      .ready (some (.ok (⟨⟨10, ⟨5⟩⟩, 1, 42⟩ : Request Nat))) ∧
    (BaseChannel.readLoop 3 c5ch =
      BaseChannel.readLoop 2
        ⟨c5ch.config,
          ⟨{ c5ch.transport.inner with
              readScript :=
                [.msg (.cancel ⟨2⟩ 7), .msg (.request ⟨⟨10, ⟨5⟩⟩, 1, 42⟩)] },
            false⟩,
          (c5ch.in_flight_requests.cancel_request 9).1⟩) ∧
    (InFlightRequests.cancel_request ⟨[], [9]⟩ 7 = (⟨[], [9]⟩, false)) ∧
    (BaseChannel.poll_next c5chEof 0).2 = .ready none ∧
    (BaseChannel.poll_next c5chErr 0).2 = .ready (some (.error 7)) := by
  refine ⟨?_, ?_, ?_, ?_, ?_⟩
  · exact (c5_poll_next_message_handling c5chReq 0).1 ⟨⟨10, ⟨5⟩⟩, 1, 42⟩ []
      (by decide) (by decide)
  · exact (c5_poll_next_message_handling c5ch 0).2.1 ⟨1⟩ 9
      [.msg (.cancel ⟨2⟩ 7), .msg (.request ⟨⟨10, ⟨5⟩⟩, 1, 42⟩)] 2 (by decide) (by decide)
  · exact (c5_poll_next_message_handling c5ch 0).2.2.1 ⟨[], [9]⟩ 7 (by decide)
  · exact (c5_poll_next_message_handling c5chEof 0).2.2.2.1 [] (by decide) (by decide)
  · exact (c5_poll_next_message_handling c5chErr 0).2.2.2.2 7 [] (by decide) (by decide)

/-! ## Claim C7 -/

theorem start_request_already_exists {Req Resp : Type} (ch : BaseChannel Req Resp)
    (id : RequestId) (deadline : Time)
    (h : ch.in_flight_requests.contains id = true) :
    BaseChannel.start_request ch id deadline = .error ⟨⟩ := by
  simp [BaseChannel.start_request, InFlightRequests.start_request, h]

/-- C7: a request whose `start_request` hits `AlreadyExists` (its id is
already in flight) is dropped by `pump_read`, which continues its read loop
on the state left by the channel poll: the duplicate is not yielded, no
error is returned, the channel is not closed, nothing is queued, and the
failed `start_request` leaves the registry — the first request's entry
included — untouched. -/
theorem c7_duplicate_request_dropped {Req Resp : Type} :
    (∀ (ch : BaseChannel Req Resp) (id : RequestId) (deadline : Time),
      ch.in_flight_requests.contains id = true →
      BaseChannel.start_request ch id deadline = .error ⟨⟩) ∧
    (∀ (s : Requests Req Resp) (now : Time) (fuel : Nat) (r : Request Req),
      (s.channel.poll_next now).2 = .ready (some (.ok r)) →
      (s.channel.poll_next now).1.in_flight_requests.contains r.id = true →
      Requests.pumpReadLoop (fuel + 1) s now =
        Requests.pumpReadLoop fuel
          { s with channel := (s.channel.poll_next now).1 } now) := by
  constructor
  · exact fun ch id deadline h => start_request_already_exists ch id deadline h
  · intro s now fuel r h2 hc
    simp only [Requests.pumpReadLoop, h2]
    rw [start_request_already_exists _ _ r.context.deadline hc]

/-- Pump for the C7 witness: id 1 already in flight (deadline 1000), the
wire carries a duplicate request with id 1 and then end-of-stream. -/
def c7s : Requests Nat Nat :=
  Channel.requests
    { BaseChannel.new Config.default
        { baseT with
          readScript := [.msg (.request ⟨⟨10, ⟨5⟩⟩, 1, 42⟩), .eof] } with
      in_flight_requests := ⟨[⟨1, 1000⟩], []⟩ }

/-- Witness for C7: the duplicate makes `start_request` fail, the loop
continues (one step of `pumpReadLoop` is a recursive call on the post-poll
state), and the completed `pump_read` reaches the end-of-stream behind the
duplicate while the first request's registry entry and the response queue
are untouched. -/
theorem c7_witness :
    BaseChannel.start_request c7s.channel 1 77 = .error ⟨⟩ ∧
    (Requests.pumpReadLoop 2 c7s 0 =
      Requests.pumpReadLoop 1 { c7s with channel := (c7s.channel.poll_next 0).1 } 0) ∧
    (Requests.pump_read c7s 0).2 = .ready none ∧
    (Requests.pump_read c7s 0).1.channel.in_flight_requests = ⟨[⟨1, 1000⟩], []⟩ ∧
    (Requests.pump_read c7s 0).1.pending_responses = c7s.pending_responses := by
  refine ⟨?_, ?_, by decide, by decide, by decide⟩
  · exact c7_duplicate_request_dropped.1 c7s.channel 1 77 (by decide)
  · exact c7_duplicate_request_dropped.2 c7s 0 1 ⟨⟨10, ⟨5⟩⟩, 1, 42⟩ (by decide) (by decide)

/-! ## Claim C4 -/

/-- C4: the future returned by `InFlightRequest::execute` stops at the first
of cancellation or service completion. If the abort fired, no response is
sent (the queue is untouched) and the future still completes with `()`. On
normal completion it builds `Response { request_id: request.id, message:
Ok(serve ...) }` and pushes `(request.context, response)` onto the response
queue; if the pump's receiver is gone the send fails and the response is
silently discarded, the future again completing with `()` rather than an
error. -/
theorem c4_execute_behavior {Req Resp : Type} (r : InFlightRequest Req Resp)
    (serve : Context → Req → Resp) (q : Mpsc Resp) :
    (InFlightRequest.execute r serve true q = (q, ())) ∧
    (q.receiver_alive = true →
      InFlightRequest.execute r serve false q =
        ({ q with
            queued := q.queued ++
              [(r.request.context,
                ⟨r.request.id, .ok (serve r.request.context r.request.message)⟩)] },
          ())) ∧
    (q.receiver_alive = false →
      InFlightRequest.execute r serve false q = (q, ())) := by
  refine ⟨rfl, ?_, ?_⟩
  · intro h
    simp [InFlightRequest.execute, Mpsc.send, h]
  · intro h
    simp [InFlightRequest.execute, Mpsc.send, h]

/-- A live response queue holding one message, for the C4 witness. -/
def c4q : Mpsc Nat :=
  { queued := [(⟨99, ⟨1⟩⟩, ⟨7, .ok 0⟩)], handler_senders := 1, receiver_alive := true }

/-- The C4 witness request handle. -/
def c4r : InFlightRequest Nat Nat :=
  { request := ⟨⟨10, ⟨5⟩⟩, 1, 20⟩, abort_registration := ⟨1⟩ }

/-- Witness for C4 with `serve` doubling its argument: aborted execution
leaves the queue alone; normal completion appends `Response { request_id :=
1, message := Ok 40 }` with the request's context; with the receiver gone
the send is discarded and the result is still `()`. -/
theorem c4_witness :
    (InFlightRequest.execute c4r (fun _ n => n + n) true c4q = (c4q, ())) ∧
    (InFlightRequest.execute c4r (fun _ n => n + n) false c4q =
      ({ c4q with
          queued := c4q.queued ++ [(⟨10, ⟨5⟩⟩, ⟨1, .ok 40⟩)] }, ())) ∧
    (InFlightRequest.execute c4r (fun _ n => n + n) false
        { c4q with receiver_alive := false } =
      ({ c4q with receiver_alive := false }, ())) := by
  refine ⟨?_, ?_, ?_⟩
  · exact (c4_execute_behavior c4r (fun _ n => n + n) c4q).1
  · exact (c4_execute_behavior c4r (fun _ n => n + n) c4q).2.1 rfl
  · exact (c4_execute_behavior c4r (fun _ n => n + n)
      { c4q with receiver_alive := false }).2.2 rfl

/-! ## Script-step computation lemmas -/

section ScriptLemmas

variable {Req Resp : Type}

theorem transport_poll_ready_ok {t : TransportState Req Resp} {rest : List OpRes}
    (h : t.readyScript = .ok :: rest) :
    t.poll_ready = ({ t with readyScript := rest }, .ready (.ok ())) := by
  rw [TransportState.poll_ready, h]

theorem transport_poll_flush_ok {t : TransportState Req Resp} {rest : List OpRes}
    (h : t.flushScript = .ok :: rest) :
    t.poll_flush = ({ t with flushScript := rest }, .ready (.ok ())) := by
  rw [TransportState.poll_flush, h]

theorem transport_poll_flush_pend {t : TransportState Req Resp} {rest : List OpRes}
    (h : t.flushScript = .pend :: rest) :
    t.poll_flush = ({ t with flushScript := rest }, .pending) := by
  rw [TransportState.poll_flush, h]

theorem bc_poll_ready_ok {ch : BaseChannel Req Resp} {rest : List OpRes}
    (h : ch.transport.inner.readyScript = .ok :: rest) :
    BaseChannel.poll_ready ch =
      ({ ch with
          transport :=
            ⟨{ ch.transport.inner with readyScript := rest }, ch.transport.done⟩ },
        .ready (.ok ())) := by
  simp only [BaseChannel.poll_ready, Fuse.poll_ready, transport_poll_ready_ok h]

theorem bc_poll_flush_ok {ch : BaseChannel Req Resp} {rest : List OpRes}
    (h : ch.transport.inner.flushScript = .ok :: rest) :
    BaseChannel.poll_flush ch =
      ({ ch with
          transport :=
            ⟨{ ch.transport.inner with flushScript := rest }, ch.transport.done⟩ },
        .ready (.ok ())) := by
  simp only [BaseChannel.poll_flush, Fuse.poll_flush, transport_poll_flush_ok h]

theorem poll_recv_empty {s : Requests Req Resp}
    (hq : s.pending_responses.queued = []) (htx : s.responses_tx = true) :
    Requests.poll_recv s = (s, .pending) := by
  simp [Requests.poll_recv, hq, htx]

theorem ensure_ready_ok {s : Requests Req Resp} {rest : List OpRes} (fuel : Nat)
    (h : s.channel.transport.inner.readyScript = .ok :: rest) :
    Requests.ensureReadyLoop (fuel + 1) s =
      ({ s with channel := (BaseChannel.poll_ready s.channel).1 }, .ready (.ok ())) := by
  rw [Requests.ensureReadyLoop]
  rw [bc_poll_ready_ok h]

theorem pnr_pending_of_ready_ok {s : Requests Req Resp} {rest : List OpRes}
    (hr : s.channel.transport.inner.readyScript = .ok :: rest)
    (hq : s.pending_responses.queued = []) (htx : s.responses_tx = true) :
    Requests.poll_next_response s =
      ({ s with channel := (BaseChannel.poll_ready s.channel).1 }, .pending) := by
  simp only [Requests.poll_next_response]
  rw [show s.channel.transport.inner.readyScript.length +
        s.channel.transport.inner.flushScript.length + 1 =
      (s.channel.transport.inner.readyScript.length +
        s.channel.transport.inner.flushScript.length) + 1 from rfl]
  rw [ensure_ready_ok _ hr]
  have hq1 : ({ s with channel := (BaseChannel.poll_ready s.channel).1 } :
      Requests Req Resp).pending_responses.queued = [] := hq
  have htx1 : ({ s with channel := (BaseChannel.poll_ready s.channel).1 } :
      Requests Req Resp).responses_tx = true := htx
  rw [poll_recv_empty hq1 htx1]

end ScriptLemmas

/-! ## Claim C8 -/

theorem drainExpired_nil_entries {reg : InFlightRequests} (h : reg.entries = []) :
    ∀ (fuel : Nat) (now : Time), drainExpired now fuel reg = reg := by
  intro fuel now
  cases fuel with
  | zero => rfl
  | succ fuel =>
    rw [drainExpired, poll_expired_eq_none (by simp [h, minEntry])]

theorem poll_next_done_eq {Req Resp : Type} {ch : BaseChannel Req Resp} (now : Time)
    (h : ch.transport.done = true) :
    BaseChannel.poll_next ch now =
      (⟨ch.config, ch.transport,
        drainExpired now (ch.in_flight_requests.len + 1) ch.in_flight_requests⟩,
        .ready none) := by
  have key := readLoop_done
    ⟨ch.config, ch.transport,
      drainExpired now (ch.in_flight_requests.len + 1) ch.in_flight_requests⟩
    ch.transport.inner.readScript.length h
  simp only [BaseChannel.poll_next]
  exact key

theorem poll_next_done_nil {Req Resp : Type} {ch : BaseChannel Req Resp} {now : Time}
    (hdone : ch.transport.done = true)
    (hents : ch.in_flight_requests.entries = []) :
    BaseChannel.poll_next ch now = (ch, .ready none) := by
  have h := poll_next_done_eq now hdone
  rw [drainExpired_nil_entries hents] at h
  exact h

/-- C8: when the read half has reached end-of-stream (the fused transport is
done), the response queue is empty and there are no in-flight requests, one
poll of the `Requests` stream flushes the transport (consuming the head of
the flush script) and completes with `Ready(None)`. -/
theorem c8_clean_shutdown {Req Resp : Type} (s : Requests Req Resp) (now : Time)
    (rr fr : List OpRes)
    (hdone : s.channel.transport.done = true)
    (hents : s.channel.in_flight_requests.entries = [])
    (hq : s.pending_responses.queued = [])
    (htx : s.responses_tx = true)
    (hr : s.channel.transport.inner.readyScript = .ok :: rr)
    (hf : s.channel.transport.inner.flushScript = .ok :: fr) :
    (Requests.poll_next s now).2 = .ready none ∧
    (Requests.poll_next s now).1.channel.transport.inner.flushScript = fr := by
  have hread : Requests.pump_read s now = (s, .ready none) := by
    rw [Requests.pump_read, Requests.pumpReadLoop]
    rw [poll_next_done_nil hdone hents]
  have hf1 : ((BaseChannel.poll_ready s.channel).1).transport.inner.flushScript =
      .ok :: fr := by
    rw [bc_poll_ready_ok hr]
    exact hf
  have hlen : ((BaseChannel.poll_ready s.channel).1).in_flight_requests.entries = [] := by
    rw [bc_poll_ready_ok hr]
    exact hents
  have hlen0 : ((BaseChannel.poll_ready s.channel).1).in_flight_requests.len = 0 := by
    simp only [InFlightRequests.len]
    rw [hlen]
    rfl
  have hwrite : Requests.pump_write s true =
      ({ s with
          channel :=
            (BaseChannel.poll_flush ((BaseChannel.poll_ready s.channel).1)).1 },
        .ready none) := by
    simp only [Requests.pump_write, pnr_pending_of_ready_ok hr hq htx]
    rw [bc_poll_flush_ok hf1]
    simp [hlen0]
  have hfw : ((BaseChannel.poll_flush ((BaseChannel.poll_ready s.channel).1)).1).transport.inner.flushScript = fr := by
    rw [bc_poll_flush_ok hf1]
  rw [Requests.poll_next, Requests.pollNextLoop]
  rw [hread]
  simp only [hwrite]
  exact ⟨trivial, hfw⟩

/-- Pump for the C8 witness: fused transport already done, empty queue and
registry, transport ready to write and to flush. -/
def c8s : Requests Nat Nat :=
  { Channel.requests
      (BaseChannel.new Config.default
        { baseT with readyScript := [.ok], flushScript := [.ok, .pend] }) with
    channel :=
      { BaseChannel.new Config.default
          { baseT with readyScript := [.ok], flushScript := [.ok, .pend] } with
        transport :=
          { inner := { baseT with readyScript := [.ok], flushScript := [.ok, .pend] },
            done := true } } }

/-- Witness for C8: the pump completes with `Ready(None)` and has consumed
the head of the flush script. -/
theorem c8_witness :
    (Requests.poll_next c8s 0).2 = .ready none ∧
    (Requests.poll_next c8s 0).1.channel.transport.inner.flushScript = [.pend] :=
  c8_clean_shutdown c8s 0 [] [.pend] (by decide) (by decide) (by decide)
    (by decide) (by decide) (by decide)

/-! ## Claim C9 -/

section C9Lemmas

variable {Req Resp : Type}

theorem poll_recv_tx (s : Requests Req Resp) :
    (Requests.poll_recv s).1.responses_tx = s.responses_tx := by
  rw [Requests.poll_recv]
  rcases hq : s.pending_responses.queued with _ | ⟨m, rest⟩
  · by_cases hc : s.pending_responses.handler_senders = 0 ∧ s.responses_tx = false
    · rw [if_pos hc]
    · rw [if_neg hc]
  · rfl

theorem ensure_tx :
    ∀ (fuel : Nat) (s : Requests Req Resp),
      (Requests.ensureReadyLoop fuel s).1.responses_tx = s.responses_tx := by
  intro fuel
  induction fuel with
  | zero => intro s; rfl
  | succ fuel ih =>
    intro s
    rcases hr : (s.channel.poll_ready).2 with (e | u) | _
    · simp only [Requests.ensureReadyLoop, hr]
    · rcases u
      simp only [Requests.ensureReadyLoop, hr]
    · simp only [Requests.ensureReadyLoop, hr]
      rcases hf : (((s.channel.poll_ready).1).poll_flush).2 with (e | u) | _
      · simp only [hf]
      · rcases u
        simp only [hf]
        rw [ih]
      · simp only [hf]

theorem poll_recv_ne_ready_none (s : Requests Req Resp)
    (htx : s.responses_tx = true) :
    (Requests.poll_recv s).2 ≠ .ready none := by
  rw [Requests.poll_recv]
  rcases hq : s.pending_responses.queued with _ | ⟨m, rest⟩ <;> simp [hq, htx]

theorem poll_next_response_ne_ready_none (s : Requests Req Resp)
    (htx : s.responses_tx = true) :
    (Requests.poll_next_response s).2 ≠ .ready none := by
  simp only [Requests.poll_next_response]
  rcases hp : (Requests.ensureReadyLoop
      (s.channel.transport.inner.readyScript.length +
        s.channel.transport.inner.flushScript.length + 1) s).2 with (e | u) | _
  · simp
  · rcases u
    rcases hr : (Requests.poll_recv (Requests.ensureReadyLoop
        (s.channel.transport.inner.readyScript.length +
          s.channel.transport.inner.flushScript.length + 1) s).1).2 with (_ | m) | _
    · refine absurd hr (poll_recv_ne_ready_none _ ?_)
      rw [ensure_tx]
      exact htx
    · simp
    · simp
  · simp

theorem pnr_tx (s : Requests Req Resp) :
    (Requests.poll_next_response s).1.responses_tx = s.responses_tx := by
  simp only [Requests.poll_next_response]
  rcases hp : (Requests.ensureReadyLoop
      (s.channel.transport.inner.readyScript.length +
        s.channel.transport.inner.flushScript.length + 1) s).2 with (e | u) | _
  · rw [ensure_tx]
  · rcases u
    rcases hr : (Requests.poll_recv (Requests.ensureReadyLoop
        (s.channel.transport.inner.readyScript.length +
          s.channel.transport.inner.flushScript.length + 1) s).1).2 with (_ | m) | _ <;>
      simp only [hr]
    · have h1 := poll_recv_tx (Requests.ensureReadyLoop
        (s.channel.transport.inner.readyScript.length +
          s.channel.transport.inner.flushScript.length + 1) s).1
      exact h1.trans (ensure_tx _ s)
    · have h1 := poll_recv_tx (Requests.ensureReadyLoop
        (s.channel.transport.inner.readyScript.length +
          s.channel.transport.inner.flushScript.length + 1) s).1
      exact h1.trans (ensure_tx _ s)
    · have h1 := poll_recv_tx (Requests.ensureReadyLoop
        (s.channel.transport.inner.readyScript.length +
          s.channel.transport.inner.flushScript.length + 1) s).1
      exact h1.trans (ensure_tx _ s)
  · rw [ensure_tx]

theorem pump_write_ready_none_inv {s : Requests Req Resp} {rhc : Bool}
    (htx : s.responses_tx = true)
    (h : (Requests.pump_write s rhc).2 = .ready none) :
    rhc = true ∧
      (Requests.pump_write s rhc).1.channel.in_flight_requests.len = 0 := by
  simp only [Requests.pump_write] at h ⊢
  rcases hp : (Requests.poll_next_response s).2 with (_ | (e | m)) | _
  · exact absurd hp (poll_next_response_ne_ready_none s htx)
  · simp only [hp] at h
    simp at h
  · rcases m with ⟨c, resp⟩
    simp only [hp] at h
    rcases hss : ((Requests.poll_next_response s).1.channel.start_send resp).2 with e | u
    · simp only [hss] at h
      simp at h
    · rcases u
      simp only [hss] at h
      simp at h
  · simp only [hp] at h ⊢
    rcases hf : ((Requests.poll_next_response s).1.channel.poll_flush).2 with (e | u) | _
    · simp only [hf] at h
      simp at h
    · rcases u
      simp only [hf] at h ⊢
      simp only [Bool.and_eq_true, beq_iff_eq] at h ⊢
      by_cases hcond : rhc = true ∧
          ((Requests.poll_next_response s).1.channel.poll_flush).1.in_flight_requests.len = 0
      · rw [if_pos hcond] at h ⊢
        exact ⟨hcond.1, hcond.2⟩
      · rw [if_neg hcond] at h
        simp at h
    · simp only [hf] at h
      simp at h

theorem pumpReadLoop_tx :
    ∀ (fuel : Nat) (s : Requests Req Resp) (now : Time),
      (Requests.pumpReadLoop fuel s now).1.responses_tx = s.responses_tx := by
  intro fuel
  induction fuel with
  | zero => intro s now; rfl
  | succ fuel ih =>
    intro s now
    rcases hp : (s.channel.poll_next now).2 with (_ | (e | r)) | _
    · simp only [Requests.pumpReadLoop, hp]
    · simp only [Requests.pumpReadLoop, hp]
    · simp only [Requests.pumpReadLoop, hp]
      rcases hsr : ((s.channel.poll_next now).1.start_request r.id r.context.deadline)
          with e | ⟨ch2, reg⟩
      · simp only [hsr]
        rw [ih]
      · simp only [hsr]
    · simp only [Requests.pumpReadLoop, hp]

theorem pump_write_tx (s : Requests Req Resp) (rhc : Bool) :
    (Requests.pump_write s rhc).1.responses_tx = s.responses_tx := by
  simp only [Requests.pump_write]
  rcases hp : (Requests.poll_next_response s).2 with (_ | (e | m)) | _
  · rcases hf : ((Requests.poll_next_response s).1.channel.poll_flush).2 with
        (e | u) | _ <;> simp only [hp, hf] <;> exact pnr_tx s
  · simp only [hp]
    exact pnr_tx s
  · rcases m with ⟨c, resp⟩
    rcases hss : ((Requests.poll_next_response s).1.channel.start_send resp).2 with
        e | u <;> simp only [hp, hss] <;> exact pnr_tx s
  · rcases hf : ((Requests.poll_next_response s).1.channel.poll_flush).2 with
        (e | u) | _ <;> simp only [hp, hf]
    · exact pnr_tx s
    · rcases u
      by_cases hcond :
          (rhc &&
            ((Requests.poll_next_response s).1.channel.poll_flush).1.in_flight_requests.len == 0) =
            true
      · simp only [hcond, if_pos]
        exact pnr_tx s
      · simp only [Bool.and_eq_true, beq_iff_eq] at hcond ⊢
        rw [if_neg hcond]
        exact pnr_tx s
    · exact pnr_tx s

theorem pollNextLoop_ready_none_inv :
    ∀ (fuel : Nat) (s s' : Requests Req Resp) (now : Time),
      s.responses_tx = true →
      Requests.pollNextLoop fuel s now = (s', .ready none) →
      s'.channel.in_flight_requests.len = 0 := by
  intro fuel
  induction fuel with
  | zero =>
    intro s s' now htx h
    have h2 := congrArg Prod.snd h
    simp [Requests.pollNextLoop] at h2
  | succ fuel ih =>
    intro s s' now htx h
    have htx1 : (Requests.pump_read s now).1.responses_tx = true := by
      rw [Requests.pump_read, pumpReadLoop_tx]
      exact htx
    have htx2 : ∀ b : Bool,
        (Requests.pump_write (Requests.pump_read s now).1 b).1.responses_tx = true := by
      intro b
      rw [pump_write_tx]
      exact htx1
    simp only [Requests.pollNextLoop] at h
    rcases hp : (Requests.pump_read s now).2 with (_ | (e | hreq)) | _ <;>
        simp only [hp] at h
    · -- read end-of-stream: read_closed = true
      rcases hq : (Requests.pump_write (Requests.pump_read s now).1 true).2 with
          (_ | (e | u)) | _ <;> simp only [hq] at h
      · -- write end-of-stream: the ready-none outcome
        have h1 := congrArg Prod.fst h
        have h2 := pump_write_ready_none_inv htx1 hq
        simp only [Prod.fst] at h1
        rw [← h1]
        exact h2.2
      · have h2 := congrArg Prod.snd h
        simp at h2
      · rcases u
        exact ih _ _ _ (htx2 true) h
      · have h2 := congrArg Prod.snd h
        simp at h2
    · have h2 := congrArg Prod.snd h
      simp at h2
    · -- read yielded a request: read_closed = false
      rcases hq : (Requests.pump_write (Requests.pump_read s now).1 false).2 with
          (_ | (e | u)) | _ <;> simp only [hq] at h <;>
        · have h2 := congrArg Prod.snd h
          simp at h2
    · -- read pending: read_closed = false
      rcases hq : (Requests.pump_write (Requests.pump_read s now).1 false).2 with
          (_ | (e | u)) | _ <;> simp only [hq] at h
      · have h2 := congrArg Prod.snd h
        simp at h2
      · have h2 := congrArg Prod.snd h
        simp at h2
      · rcases u
        exact ih _ _ _ (htx2 false) h
      · have h2 := congrArg Prod.snd h
        simp at h2

end C9Lemmas

/-- C9: every pump built by `Channel::requests` holds a live `responses_tx`
sender, and no pump operation (`pump_read`, `pump_write`) ever gives it up,
so while the pump exists the receiving half can never observe the response
queue as terminated: with `responses_tx` alive, `poll_recv` and hence
`poll_next_response` never return `Ready(None)`, `pump_write`'s
queue-terminated shutdown branch (step 2) is unreachable — its end-of-stream
result occurs only with `read_half_closed = true` and an empty in-flight
registry — and a `Ready(None)` from `poll_next` likewise leaves zero
in-flight requests. -/
theorem c9_queue_never_terminated {Req Resp : Type} :
    (∀ ch : BaseChannel Req Resp, (Channel.requests ch).responses_tx = true) ∧
    (∀ (fuel : Nat) (s : Requests Req Resp) (now : Time),
      (Requests.pumpReadLoop fuel s now).1.responses_tx = s.responses_tx) ∧
    (∀ (s : Requests Req Resp) (rhc : Bool),
      (Requests.pump_write s rhc).1.responses_tx = s.responses_tx) ∧
    (∀ s : Requests Req Resp, s.responses_tx = true →
      (Requests.poll_recv s).2 ≠ .ready none) ∧
    (∀ s : Requests Req Resp, s.responses_tx = true →
      (Requests.poll_next_response s).2 ≠ .ready none) ∧
    (∀ (s : Requests Req Resp) (rhc : Bool), s.responses_tx = true →
      (Requests.pump_write s rhc).2 = .ready none →
      rhc = true ∧
        (Requests.pump_write s rhc).1.channel.in_flight_requests.len = 0) ∧
    (∀ (s s' : Requests Req Resp) (now : Time), s.responses_tx = true →
      Requests.poll_next s now = (s', .ready none) →
      s'.channel.in_flight_requests.len = 0) :=
  ⟨fun _ => rfl, pumpReadLoop_tx, pump_write_tx,
    poll_recv_ne_ready_none, poll_next_response_ne_ready_none,
    fun _ _ htx h => pump_write_ready_none_inv htx h,
    fun s s' now htx h => pollNextLoop_ready_none_inv _ s s' now htx h⟩

/-- Pump for the C9 witness: fused transport done, empty queue and registry,
transport ready to write and flush; built by `Channel.requests`, so its
`responses_tx` is live. -/
def c9s : Requests Nat Nat :=
  { channel :=
      { config := Config.default,
        transport :=
          { inner := { baseT with readyScript := [.ok], flushScript := [.ok] },
            done := true },
        in_flight_requests := InFlightRequests.default },
    pending_responses := { queued := [], handler_senders := 0, receiver_alive := true },
    responses_tx := true }

/-- Witness for C9: on a concrete pump the sender is live from construction
and across pumping; the queue is never observed as terminated; and both
ready-none outcomes (of `pump_write` with the read half closed, and of
`poll_next`) come with an empty in-flight registry. -/
theorem c9_witness :
    ((Channel.requests (c9s.channel)).responses_tx = true) ∧
    ((Requests.pumpReadLoop 1 c9s 0).1.responses_tx = c9s.responses_tx) ∧
    ((Requests.pump_write c9s true).1.responses_tx = c9s.responses_tx) ∧
    ((Requests.poll_recv c9s).2 ≠ .ready none) ∧
    ((Requests.poll_next_response c9s).2 ≠ .ready none) ∧
    (true = true ∧
      (Requests.pump_write c9s true).1.channel.in_flight_requests.len = 0) ∧
    ((Requests.poll_next c9s 0).1.channel.in_flight_requests.len = 0) := by
  refine ⟨c9_queue_never_terminated.1 c9s.channel,
    c9_queue_never_terminated.2.1 1 c9s 0,
    c9_queue_never_terminated.2.2.1 c9s true,
    c9_queue_never_terminated.2.2.2.1 c9s (by decide),
    c9_queue_never_terminated.2.2.2.2.1 c9s (by decide), ?_, ?_⟩
  · exact c9_queue_never_terminated.2.2.2.2.2.1 c9s true (by decide) (by decide)
  · exact c9_queue_never_terminated.2.2.2.2.2.2 c9s (Requests.poll_next c9s 0).1 0
      (by decide) (by decide)

/-! ## Claim C3 -/

/-- C3 (amended): `Requests::pump_write` follows the spec's three steps with
the transport's asynchrony made explicit. (1) With a response available and
the transport write-ready, it `start_send`s the response; when the send
succeeds it yields progress and the response is appended to the wire.
(2) With the queue terminated it flushes and, once the flush completes,
yields end-of-stream-on-write. (3) Otherwise it flushes; once the flush
completes it yields end-of-stream-on-write exactly when `read_half_closed`
holds and there are no in-flight requests, else `Pending`; while the flush
is still pending it yields `Pending`. The `poll_next_response` helper
receives from the queue only once the transport is write-ready, flushing
while `poll_ready` is `Pending`, and exits `Pending` (queue untouched) when
a flush inside that loop is `Pending`. -/
theorem c3_pump_write_three_steps {Req Resp : Type} :
    (∀ (s s1 : Requests Req Resp) (rhc : Bool) (c : Context) (r : Response Resp),
      Requests.poll_next_response s = (s1, .ready (some (.ok (c, r)))) →
      (s1.channel.start_send r).2 = .ok () →
      Requests.pump_write s rhc =
        ({ s1 with channel := (s1.channel.start_send r).1 }, .ready (some (.ok ()))) ∧
      (s1.channel.start_send r).1.transport.inner.written =
        s1.channel.transport.inner.written ++ [r]) ∧
    (∀ (s s1 : Requests Req Resp) (rhc : Bool),
      Requests.poll_next_response s = (s1, .ready none) →
      (s1.channel.poll_flush).2 = .ready (.ok ()) →
      Requests.pump_write s rhc =
        ({ s1 with channel := (s1.channel.poll_flush).1 }, .ready none)) ∧
    (∀ (s s1 : Requests Req Resp) (rhc : Bool),
      Requests.poll_next_response s = (s1, .pending) →
      (s1.channel.poll_flush).2 = .ready (.ok ()) →
      Requests.pump_write s rhc =
        (if rhc && ((s1.channel.poll_flush).1.in_flight_requests.len == 0) then
          ({ s1 with channel := (s1.channel.poll_flush).1 }, .ready none)
        else
          ({ s1 with channel := (s1.channel.poll_flush).1 }, .pending))) ∧
    (∀ (s s1 : Requests Req Resp) (rhc : Bool),
      Requests.poll_next_response s = (s1, .pending) →
      (s1.channel.poll_flush).2 = .pending →
      Requests.pump_write s rhc =
        ({ s1 with channel := (s1.channel.poll_flush).1 }, .pending)) ∧
    (∀ (s : Requests Req Resp) (rest : List OpRes),
      s.channel.transport.inner.readyScript = .ok :: rest →
      s.pending_responses.queued = [] →
      s.responses_tx = true →
      Requests.poll_next_response s =
        ({ s with channel := (s.channel.poll_ready).1 }, .pending)) ∧
    (∀ (s : Requests Req Resp) (fuel : Nat),
      (s.channel.poll_ready).2 = .pending →
      (((s.channel.poll_ready).1).poll_flush).2 = .ready (.ok ()) →
      Requests.ensureReadyLoop (fuel + 1) s =
        Requests.ensureReadyLoop fuel
          { s with channel := (((s.channel.poll_ready).1).poll_flush).1 }) ∧
    (∀ (s : Requests Req Resp) (fuel : Nat),
      (s.channel.poll_ready).2 = .pending →
      (((s.channel.poll_ready).1).poll_flush).2 = .pending →
      Requests.ensureReadyLoop (fuel + 1) s =
        ({ s with channel := (((s.channel.poll_ready).1).poll_flush).1 }, .pending)) := by
  refine ⟨?_, ?_, ?_, ?_, ?_, ?_, ?_⟩
  · intro s s1 rhc c r hpnr hss
    constructor
    · simp only [Requests.pump_write, hpnr, hss]
    · exact transport_start_send_ok_written hss
  · intro s s1 rhc hpnr hf
    simp only [Requests.pump_write, hpnr, hf]
  · intro s s1 rhc hpnr hf
    simp only [Requests.pump_write, hpnr, hf]
  · intro s s1 rhc hpnr hf
    simp only [Requests.pump_write, hpnr, hf]
  · intro s rest hr hq htx
    exact pnr_pending_of_ready_ok hr hq htx
  · intro s fuel hrp hfo
    simp only [Requests.ensureReadyLoop, hrp, hfo]
  · intro s fuel hrp hfp
    simp only [Requests.ensureReadyLoop, hrp, hfp]

/-- Pump for the C3 counterexample and flush-pending witness conjunct: empty
live queue, transport write-ready but with a pending flush. -/
def c3s : Requests Nat Nat :=
  Channel.requests (BaseChannel.new Config.default
    { baseT with readyScript := [.ok], flushScript := [.pend] })

/-- Counterexample to C3 as stated: with no response available,
`read_half_closed = true` and `in_flight_requests() == 0` — the exact
conditions under which step (3) of the claim requires end-of-stream-on-write
— `pump_write` yields `Pending`, because the transport flush has not
completed yet. -/
theorem c3_counterexample :
    (Requests.poll_next_response c3s).2 = .pending ∧
    c3s.channel.in_flight_requests.len = 0 ∧
    (Requests.pump_write c3s true).2 = .pending := by
  decide

/-- Pump with a queued response and a write-ready transport (C3 witness,
step 1). -/
def c3a : Requests Nat Nat :=
  { Channel.requests (BaseChannel.new Config.default
      { baseT with readyScript := [.ok] }) with
    pending_responses :=
      { queued := [(⟨10, ⟨5⟩⟩, ⟨1, .ok 40⟩)], handler_senders := 1,
        receiver_alive := true } }

/-- Pump whose queue is terminated: no handler senders and the struct's own
sender gone (C3 witness, step 2 — reachable only in this counterfactual
state, see C9). -/
def c3b : Requests Nat Nat :=
  { Channel.requests (BaseChannel.new Config.default
      { baseT with readyScript := [.ok], flushScript := [.ok] }) with
    responses_tx := false }

/-- Pump with an empty live queue and a transport that is write-ready and
flushes cleanly (C3 witness, step 3). -/
def c3c : Requests Nat Nat :=
  Channel.requests (BaseChannel.new Config.default
    { baseT with readyScript := [.ok], flushScript := [.ok] })

/-- Pump whose transport is not write-ready but flushes cleanly (C3 witness,
readiness-loop retry). -/
def c3d : Requests Nat Nat :=
  Channel.requests (BaseChannel.new Config.default
    { baseT with readyScript := [.pend], flushScript := [.ok] })

/-- Pump whose transport is neither write-ready nor able to flush (C3
witness, readiness-loop pending exit). -/
def c3e : Requests Nat Nat :=
  Channel.requests (BaseChannel.new Config.default
    { baseT with readyScript := [.pend], flushScript := [.pend] })

/-- Witness for the amended C3, one concrete pump per step: a successful
send yields progress and appends the response to the wire; a terminated
queue flushes and ends the write stream; an empty queue with a clean flush
ends the write stream exactly under `read_half_closed` with nothing in
flight; a pending flush yields `Pending`; and the readiness loop flushes
before receiving. -/
theorem c3_witness :
    (Requests.pump_write c3a true =
      ({ (Requests.poll_next_response c3a).1 with
          channel :=
            (((Requests.poll_next_response c3a).1).channel.start_send ⟨1, .ok 40⟩).1 },
        .ready (some (.ok ()))) ∧
      (((Requests.poll_next_response c3a).1).channel.start_send ⟨1, .ok 40⟩).1.transport.inner.written =
        ((Requests.poll_next_response c3a).1).channel.transport.inner.written ++
          [⟨1, .ok 40⟩]) ∧
    (Requests.pump_write c3b false =
      ({ (Requests.poll_next_response c3b).1 with
          channel := (((Requests.poll_next_response c3b).1).channel.poll_flush).1 },
        .ready none)) ∧
    (Requests.pump_write c3c true =
      (if true &&
          (((((Requests.poll_next_response c3c).1).channel.poll_flush).1).in_flight_requests.len == 0) then
        ({ (Requests.poll_next_response c3c).1 with
            channel := (((Requests.poll_next_response c3c).1).channel.poll_flush).1 },
          .ready none)
      else
        ({ (Requests.poll_next_response c3c).1 with
            channel := (((Requests.poll_next_response c3c).1).channel.poll_flush).1 },
          .pending))) ∧
    (Requests.pump_write c3s true =
      ({ (Requests.poll_next_response c3s).1 with
          channel := (((Requests.poll_next_response c3s).1).channel.poll_flush).1 },
        .pending)) ∧
    (Requests.poll_next_response c3c =
      ({ c3c with channel := (c3c.channel.poll_ready).1 }, .pending)) ∧
    (Requests.ensureReadyLoop 1 c3d =
      Requests.ensureReadyLoop 0
        { c3d with channel := (((c3d.channel.poll_ready).1).poll_flush).1 }) ∧
    (Requests.ensureReadyLoop 1 c3e =
      ({ c3e with channel := (((c3e.channel.poll_ready).1).poll_flush).1 }, .pending)) := by
  refine ⟨⟨?_, ?_⟩, ?_, ?_, ?_, ?_, ?_, ?_⟩
  · exact (c3_pump_write_three_steps.1 c3a _ true ⟨10, ⟨5⟩⟩ ⟨1, .ok 40⟩
      (by decide) (by decide)).1
  · exact (c3_pump_write_three_steps.1 c3a _ true ⟨10, ⟨5⟩⟩ ⟨1, .ok 40⟩
      (by decide) (by decide)).2
  · exact c3_pump_write_three_steps.2.1 c3b _ false (by decide) (by decide)
  · exact c3_pump_write_three_steps.2.2.1 c3c _ true (by decide) (by decide)
  · exact c3_pump_write_three_steps.2.2.2.1 c3s _ true (by decide) (by decide)
  · exact c3_pump_write_three_steps.2.2.2.2.1 c3c [] (by decide) (by decide) (by decide)
  · exact c3_pump_write_three_steps.2.2.2.2.2.1 c3d 0 (by decide) (by decide)
  · exact c3_pump_write_three_steps.2.2.2.2.2.2 c3e 0 (by decide) (by decide)

/-! ## Claim C2 -/

/-- C2 (amended): each iteration of `Requests::poll_next` does one
`pump_read` then one `pump_write`; an error from `pump_read` is returned
before `pump_write` runs; an error from `pump_write` is returned even when
`pump_read` yielded a request in the same iteration (that request is
dropped); otherwise the termination matrix applies: a request yielded by
`pump_read` is returned; end-of-stream on both sides returns `Ready(None)`;
write progress (`Ready(Some(()))`) continues the loop; everything else
returns `Pending`. `read_half_closed` is passed to `pump_write` exactly when
`pump_read` reported end-of-stream. -/
theorem c2_poll_next_termination_matrix {Req Resp : Type} :
    (∀ (s : Requests Req Resp) (now : Time) (fuel : Nat) (e : IoErr),
      (Requests.pump_read s now).2 = .ready (some (.error e)) →
      Requests.pollNextLoop (fuel + 1) s now =
        ((Requests.pump_read s now).1, .ready (some (.error e)))) ∧
    (∀ (s : Requests Req Resp) (now : Time) (fuel : Nat) (e : IoErr)
        (h : InFlightRequest Req Resp),
      (Requests.pump_read s now).2 = .ready (some (.ok h)) →
      (Requests.pump_write (Requests.pump_read s now).1 false).2 =
        .ready (some (.error e)) →
      Requests.pollNextLoop (fuel + 1) s now =
        ((Requests.pump_write (Requests.pump_read s now).1 false).1,
          .ready (some (.error e)))) ∧
    (∀ (s : Requests Req Resp) (now : Time) (fuel : Nat)
        (h : InFlightRequest Req Resp),
      (Requests.pump_read s now).2 = .ready (some (.ok h)) →
      (∀ e : IoErr,
        (Requests.pump_write (Requests.pump_read s now).1 false).2 ≠
          .ready (some (.error e))) →
      Requests.pollNextLoop (fuel + 1) s now =
        ((Requests.pump_write (Requests.pump_read s now).1 false).1,
          .ready (some (.ok h)))) ∧
    (∀ (s : Requests Req Resp) (now : Time) (fuel : Nat),
      (Requests.pump_read s now).2 = .ready none →
      (Requests.pump_write (Requests.pump_read s now).1 true).2 = .ready none →
      Requests.pollNextLoop (fuel + 1) s now =
        ((Requests.pump_write (Requests.pump_read s now).1 true).1, .ready none)) ∧
    (∀ (s : Requests Req Resp) (now : Time) (fuel : Nat),
      (Requests.pump_read s now).2 = .pending →
      (Requests.pump_write (Requests.pump_read s now).1 false).2 =
        .ready (some (.ok ())) →
      Requests.pollNextLoop (fuel + 1) s now =
        Requests.pollNextLoop fuel
          (Requests.pump_write (Requests.pump_read s now).1 false).1 now) ∧
    (∀ (s : Requests Req Resp) (now : Time) (fuel : Nat),
      (Requests.pump_read s now).2 = .ready none →
      (Requests.pump_write (Requests.pump_read s now).1 true).2 =
        .ready (some (.ok ())) →
      Requests.pollNextLoop (fuel + 1) s now =
        Requests.pollNextLoop fuel
          (Requests.pump_write (Requests.pump_read s now).1 true).1 now) ∧
    (∀ (s : Requests Req Resp) (now : Time) (fuel : Nat),
      (Requests.pump_read s now).2 = .pending →
      (Requests.pump_write (Requests.pump_read s now).1 false).2 = .pending →
      Requests.pollNextLoop (fuel + 1) s now =
        ((Requests.pump_write (Requests.pump_read s now).1 false).1, .pending)) ∧
    (∀ (s : Requests Req Resp) (now : Time) (fuel : Nat),
      (Requests.pump_read s now).2 = .ready none →
      (Requests.pump_write (Requests.pump_read s now).1 true).2 = .pending →
      Requests.pollNextLoop (fuel + 1) s now =
        ((Requests.pump_write (Requests.pump_read s now).1 true).1, .pending)) ∧
    (∀ (s : Requests Req Resp) (now : Time) (fuel : Nat),
      (Requests.pump_read s now).2 = .pending →
      (Requests.pump_write (Requests.pump_read s now).1 false).2 = .ready none →
      Requests.pollNextLoop (fuel + 1) s now =
        ((Requests.pump_write (Requests.pump_read s now).1 false).1, .pending)) := by
  refine ⟨?_, ?_, ?_, ?_, ?_, ?_, ?_, ?_, ?_⟩
  · intro s now fuel e hp
    simp only [Requests.pollNextLoop, hp]
  · intro s now fuel e h hp hw
    simp only [Requests.pollNextLoop, hp, hw]
  · intro s now fuel h hp hne
    rcases hw : (Requests.pump_write (Requests.pump_read s now).1 false).2 with
        (_ | (e | u)) | _
    · simp only [Requests.pollNextLoop, hp, hw]
    · exact absurd hw (hne e)
    · rcases u
      simp only [Requests.pollNextLoop, hp, hw]
    · simp only [Requests.pollNextLoop, hp, hw]
  · intro s now fuel hp hw
    simp only [Requests.pollNextLoop, hp, hw]
  · intro s now fuel hp hw
    simp only [Requests.pollNextLoop, hp, hw]
  · intro s now fuel hp hw
    simp only [Requests.pollNextLoop, hp, hw]
  · intro s now fuel hp hw
    simp only [Requests.pollNextLoop, hp, hw]
  · intro s now fuel hp hw
    simp only [Requests.pollNextLoop, hp, hw]
  · intro s now fuel hp hw
    simp only [Requests.pollNextLoop, hp, hw]

/-- Pump for the C2 counterexample: the wire carries a request, but the
transport's `poll_ready` fails with error 7, so `pump_write` errors in the
same iteration that `pump_read` yields the request. -/
def c2s : Requests Nat Nat :=
  Channel.requests (BaseChannel.new Config.default
    { baseT with
      readScript := [.msg (.request ⟨⟨10, ⟨5⟩⟩, 1, 42⟩)],
      readyScript := [.fail 7] })

/-- Counterexample to C2 as stated: `pump_read` yields a request, yet
`poll_next` does not return it — it returns `pump_write`'s error (the
request handler is dropped). -/
theorem c2_counterexample :
    (Requests.pump_read c2s 0).2 =
      .ready (some (.ok
        ({ request := ⟨⟨10, ⟨5⟩⟩, 1, 42⟩, abort_registration := ⟨1⟩ } :
          InFlightRequest Nat Nat))) ∧
    (Requests.poll_next c2s 0).2 = .ready (some (.error 7)) := by
  decide

/-- Pump whose transport read errors (C2 witness, read-error row). -/
def c2e : Requests Nat Nat :=
  Channel.requests (BaseChannel.new Config.default
    { baseT with readScript := [.fail 9] })

/-- Pump that reads a request while the write side stays pending (C2
witness, yield row). -/
def c2a : Requests Nat Nat :=
  Channel.requests (BaseChannel.new Config.default
    { baseT with readScript := [.msg (.request ⟨⟨10, ⟨5⟩⟩, 1, 42⟩)] })

/-- Pump at clean shutdown (C2 witness, both-end-of-stream row). -/
def c2b : Requests Nat Nat :=
  { Channel.requests (BaseChannel.new Config.default
      { baseT with readyScript := [.ok], flushScript := [.ok] }) with
    channel :=
      { BaseChannel.new Config.default
          { baseT with readyScript := [.ok], flushScript := [.ok] } with
        transport :=
          { inner := { baseT with readyScript := [.ok], flushScript := [.ok] },
            done := true } } }

/-- Pump with a queued response and nothing to read (C2 witness, progress
row with a pending read). -/
def c2c : Requests Nat Nat :=
  { Channel.requests (BaseChannel.new Config.default
      { baseT with readyScript := [.ok] }) with
    pending_responses :=
      { queued := [(⟨10, ⟨5⟩⟩, ⟨1, .ok 40⟩)], handler_senders := 1,
        receiver_alive := true } }

/-- Pump with a queued response and a finished read half (C2 witness,
progress row with end-of-stream on read). -/
def c2d : Requests Nat Nat :=
  { c2c with
    channel := { c2c.channel with
      transport := { inner := { baseT with readyScript := [.ok] }, done := true } } }

/-- Completely idle pump (C2 witness, pending row). -/
def c2f : Requests Nat Nat :=
  Channel.requests (BaseChannel.new Config.default baseT)

/-- Idle pump with a finished read half and a transport that is neither
ready nor flushing (C2 witness, end-of-stream-with-pending-write row). -/
def c2g : Requests Nat Nat :=
  { Channel.requests (BaseChannel.new Config.default baseT) with
    channel := { BaseChannel.new Config.default baseT with
      transport := { inner := baseT, done := true } } }

/-- Pump with a terminated queue but live read half (C2 witness, write
end-of-stream with pending read row). -/
def c2h : Requests Nat Nat :=
  { Channel.requests (BaseChannel.new Config.default
      { baseT with readyScript := [.ok], flushScript := [.ok] }) with
    responses_tx := false }

/-- Witness for the amended C2, one concrete pump per matrix row. -/
theorem c2_witness :
    (Requests.pollNextLoop 1 c2e 0 =
      ((Requests.pump_read c2e 0).1, .ready (some (.error 9)))) ∧
    (Requests.pollNextLoop 1 c2s 0 =
      ((Requests.pump_write (Requests.pump_read c2s 0).1 false).1,
        .ready (some (.error 7)))) ∧
    (Requests.pollNextLoop 1 c2a 0 =
      ((Requests.pump_write (Requests.pump_read c2a 0).1 false).1,
        .ready (some (.ok
          ({ request := ⟨⟨10, ⟨5⟩⟩, 1, 42⟩, abort_registration := ⟨1⟩ } :
            InFlightRequest Nat Nat))))) ∧
    (Requests.pollNextLoop 1 c2b 0 =
      ((Requests.pump_write (Requests.pump_read c2b 0).1 true).1, .ready none)) ∧
    (Requests.pollNextLoop 1 c2c 0 =
      Requests.pollNextLoop 0
        (Requests.pump_write (Requests.pump_read c2c 0).1 false).1 0) ∧
    (Requests.pollNextLoop 1 c2d 0 =
      Requests.pollNextLoop 0
        (Requests.pump_write (Requests.pump_read c2d 0).1 true).1 0) ∧
    (Requests.pollNextLoop 1 c2f 0 =
      ((Requests.pump_write (Requests.pump_read c2f 0).1 false).1, .pending)) ∧
    (Requests.pollNextLoop 1 c2g 0 =
      ((Requests.pump_write (Requests.pump_read c2g 0).1 true).1, .pending)) ∧
    (Requests.pollNextLoop 1 c2h 0 =
      ((Requests.pump_write (Requests.pump_read c2h 0).1 false).1, .pending)) := by
  have hwa : (Requests.pump_write (Requests.pump_read c2a 0).1 false).2 = .pending := by
    decide
  refine ⟨?_, ?_, ?_, ?_, ?_, ?_, ?_, ?_, ?_⟩
  · exact c2_poll_next_termination_matrix.1 c2e 0 0 9 (by decide)
  · exact c2_poll_next_termination_matrix.2.1 c2s 0 0 7
      ⟨⟨⟨10, ⟨5⟩⟩, 1, 42⟩, ⟨1⟩⟩ (by decide) (by decide)
  · exact c2_poll_next_termination_matrix.2.2.1 c2a 0 0
      ⟨⟨⟨10, ⟨5⟩⟩, 1, 42⟩, ⟨1⟩⟩ (by decide)
      (fun e he => by rw [hwa] at he; exact Poll.noConfusion he)
  · exact c2_poll_next_termination_matrix.2.2.2.1 c2b 0 0 (by decide) (by decide)
  · exact c2_poll_next_termination_matrix.2.2.2.2.1 c2c 0 0 (by decide) (by decide)
  · exact c2_poll_next_termination_matrix.2.2.2.2.2.1 c2d 0 0 (by decide) (by decide)
  · exact c2_poll_next_termination_matrix.2.2.2.2.2.2.1 c2f 0 0 (by decide) (by decide)
  · exact c2_poll_next_termination_matrix.2.2.2.2.2.2.2.1 c2g 0 0 (by decide) (by decide)
  · exact c2_poll_next_termination_matrix.2.2.2.2.2.2.2.2 c2h 0 0 (by decide) (by decide)

end Tarpc
